import Mathlib

/-!
Verification development for the ClassicBloomFX bloom render-graph builder.

The embedding models `FClassicBloomSceneViewExtension::PostProcessPass_RenderThread`
(ClassicBloomSubsystem.cpp) as a pure function producing the list of full-screen
passes added to the render graph together with the returned screen-pass texture,
and `UClassicBloomSubsystem::RegisterBloomComponent` / `UnregisterBloomComponent`
as list operations.

Machine floats are modelled by rationals, int32 values by unbounded integers
(all quantities involved stay far below 2^31).  Render-graph textures are
modelled symbolically: one constructor per `CreateTexture` call site, carrying
the loop index where the C++ name carries one.  An `FScreenTransform` built by
the `ChangeTextureBasisFromTo(Dest, TexelPosition, ViewportUV) *
ChangeTextureBasisFromTo(Src, ViewportUV, TextureUV)` pattern (the only pattern
in this codebase) is modelled by the pair of viewports it is computed from,
which determines the numeric scale/bias.
-/

namespace ClassicBloom

/-- A 2D integer point, modelling `FIntPoint`. -/
structure IntPoint where
  x : Int
  y : Int
deriving DecidableEq

/-- An integer rectangle, modelling `FIntRect` (min inclusive, max exclusive). -/
structure IntRect where
  min : IntPoint
  max : IntPoint
deriving DecidableEq

def IntRect.width (r : IntRect) : Int := r.max.x - r.min.x

def IntRect.height (r : IntRect) : Int := r.max.y - r.min.y

/-- C++ integer division truncates toward zero. -/
def cppDiv (a b : Int) : Int := Int.tdiv a b

/-- `FMath::DivideAndRoundUp(Dividend, Divisor) = (Dividend + Divisor - 1) / Divisor`. -/
def divideAndRoundUp (a d : Int) : Int := cppDiv (a + d - 1) d

/-- `FIntPoint::DivideAndRoundUp`, componentwise. -/
def divideAndRoundUpP (p : IntPoint) (d : Int) : IntPoint :=
  ⟨divideAndRoundUp p.x d, divideAndRoundUp p.y d⟩

/-- `FMath::Clamp` on floats: `(X < Min) ? Min : (X < Max) ? X : Max`. -/
def clampQ (x lo hi : ℚ) : ℚ := if x < lo then lo else if x < hi then x else hi

/-- `FMath::Clamp` on int32. -/
def clampI (x lo hi : Int) : Int := if x < lo then lo else if x < hi then x else hi

/-- `FMath::RoundToInt` rounds half upward: `FloorToInt(F + 0.5)`. -/
def roundToInt (x : ℚ) : Int := ⌊x + 1/2⌋

/-- Booleans passed to shaders as 1.0f / 0.0f floats. -/
def b2q (b : Bool) : ℚ := if b then 1 else 0

/-- `EBloomMode` (BloomFXComponent.h). -/
inductive EBloomMode
  | Standard
  | DirectionalGlare
  | Kawase
  | SoftFocus
deriving DecidableEq

/-- `EBloomBlendMode` (BloomFXComponent.h). -/
inductive EBloomBlendMode
  | Screen
  | Overlay
  | SoftLight
  | HardLight
  | Lighten
  | Multiply
deriving DecidableEq

/-- `EBloomPostProcessPass` (BloomFXComponent.h). -/
inductive EBloomPostProcessPass
  | Tonemap
  | MotionBlur
  | FXAA
  | VisualizeDepthOfField
deriving DecidableEq

/-- `(float)ActiveComponent->BloomBlendMode`: the enum's underlying uint8 value. -/
def blendModeToFloat : EBloomBlendMode → ℚ
  | .Screen => 0
  | .Overlay => 1
  | .SoftLight => 2
  | .HardLight => 3
  | .Lighten => 4
  | .Multiply => 5

/-- The fields of `UBloomFXComponent` read by the render pipeline
(BloomFXComponent.h).  `FLinearColor BloomTint` is split into four rational
channels. -/
structure UBloomFXComponent where
  BloomMode : EBloomMode
  BloomIntensity : ℚ
  BloomThreshold : ℚ
  BloomSize : ℚ
  bUseSceneColor : Bool
  BloomTintR : ℚ
  BloomTintG : ℚ
  BloomTintB : ℚ
  BloomBlendMode : EBloomBlendMode
  BloomSaturation : ℚ
  bProtectHighlights : Bool
  HighlightProtection : ℚ
  DownsampleScale : ℚ
  BlurPasses : Int
  BlurSamples : Int
  bHighQualityUpsampling : Bool
  GlareStreakCount : Int
  GlareStreakLength : Int
  GlareRotationOffset : ℚ
  GlareFalloff : ℚ
  KawaseMipCount : Int
  KawaseFilterRadius : ℚ
  bKawaseSoftThreshold : Bool
  KawaseThresholdKnee : ℚ
  SoftFocusOverlayMultiplier : ℚ
  SoftFocusBlendStrength : ℚ
  SoftFocusSoftLightMultiplier : ℚ
  SoftFocusFinalBlend : ℚ
  PostProcessPass : EBloomPostProcessPass
  bUseAdaptiveBrightnessScaling : Bool
  GameModeBloomScale : ℚ
  bEnableDebugLogging : Bool
  bShowBloomOnly : Bool
  bShowGammaCompensation : Bool

/-- One registered entry of the subsystem's `BloomComponents` array:
a `TWeakObjectPtr` (validity flag) to a component with an `IsActive` state. -/
structure CompEntry where
  isValidPtr : Bool
  isActive : Bool
  comp : UBloomFXComponent

/-- View classification and show flags read from `FViewInfo` / `FSceneViewFamily`. -/
structure ViewState where
  bIsReflectionCapture : Bool
  bIsSceneCapture : Bool
  bIsViewInfo : Bool
  showRendering : Bool
  showPostProcessing : Bool
  showWireframe : Bool
  hasShaderMap : Bool
  bIsGameWorld : Bool

/-- The scene color input: `FScreenPassTexture` validity, texture extent and
valid view rectangle. -/
structure SPTexture where
  isValid : Bool
  extent : IntPoint
  viewRect : IntRect

/-- Availability (`TShaderMapRef<...>.IsValid()`) of each pixel shader. -/
structure Shaders where
  brightPassValid : Bool
  blurValid : Bool
  glareStreakValid : Bool
  glareAccumulateValid : Bool
  kawaseDownsampleValid : Bool
  kawaseUpsampleValid : Bool
  compositeValid : Bool

/-- A caller-supplied override output render target (`Inputs.OverrideOutput`). -/
structure OverrideRT where
  extent : IntPoint
  viewRect : IntRect

/-- A texture viewport: allocated extent plus valid sub-rectangle
(`FScreenPassTextureViewport`). -/
structure Viewport where
  extent : IntPoint
  rect : IntRect
deriving DecidableEq

/-- Symbolic render-graph texture: one constructor per `CreateTexture` site. -/
inductive Tex
  | sceneColor
  | brightPass
  | streak (i : Int)
  | glareAccum
  | glareAccumBatch (batchStart : Int)
  | glareBlurTemp
  | glareBlurred
  | kawaseMip (mip : Int)
  | kawaseUpsample (mip : Int)
  | kawaseBlurred
  | blurTemp
  | blurred
  | createdOutput
  | overrideOutput
deriving DecidableEq

/-- An `FScreenTransform` of the form
`ChangeTextureBasisFromTo(dest, TexelPosition, ViewportUV) *
ChangeTextureBasisFromTo(src, ViewportUV, TextureUV)`, represented by the two
viewports it is computed from (destination pixel position to source texture UV). -/
structure CoordTransform where
  dest : Viewport
  src : Viewport
deriving DecidableEq

/-- `FClassicBloomBrightPassPS::FParameters` as filled by the bright pass. -/
structure BrightPassParams where
  sceneColorTexture : Tex
  inputViewportSize : IntPoint
  outputViewportSize : IntPoint
  svPositionToInputTextureUV : CoordTransform
  bloomThreshold : ℚ
  bloomIntensity : ℚ
  target : Tex
  viewport : IntRect

/-- `FClassicBloomGlareStreakPS::FParameters`.  The shader receives
`(cos θ, sin θ)` of `streakAngleDeg` converted to radians. -/
structure GlareStreakParams where
  sourceTexture : Tex
  bufferSize : IntPoint
  streakAngleDeg : ℚ
  streakLength : ℚ
  streakFalloff : ℚ
  target : Tex
  viewport : IntRect

/-- `FClassicBloomGlareAccumulatePS::FParameters`. -/
structure GlareAccumParams where
  streakTexture0 : Tex
  streakTexture1 : Tex
  streakTexture2 : Tex
  streakTexture3 : Tex
  viewportSize : IntPoint
  numStreaks : Int
  target : Tex
  viewport : IntRect

/-- `FClassicBloomBlurPS::FParameters`. -/
structure BlurParams where
  sourceTexture : Tex
  bufferSize : IntPoint
  blurDirectionX : ℚ
  blurDirectionY : ℚ
  blurRadius : ℚ
  target : Tex
  viewport : IntRect

/-- `FClassicBloomKawaseDownsamplePS::FParameters`. -/
structure KawaseDownParams where
  sourceTexture : Tex
  sourceSize : IntPoint
  outputSize : IntPoint
  svPositionToSourceUV : CoordTransform
  bloomThreshold : ℚ
  thresholdKnee : ℚ
  mipLevel : Int
  bUseKarisAverage : Int
  target : Tex
  viewport : IntRect

/-- `FClassicBloomKawaseUpsamplePS::FParameters`. -/
structure KawaseUpParams where
  sourceTexture : Tex
  previousMipTexture : Tex
  outputSize : IntPoint
  filterRadius : ℚ
  target : Tex
  viewport : IntRect

/-- `FClassicBloomCompositePS::FParameters`. -/
structure CompositeParams where
  sceneColorTexture : Tex
  bloomTexture : Tex
  outputViewportSize : IntPoint
  svPositionToSceneColorUV : CoordTransform
  svPositionToBloomUV : CoordTransform
  bloomIntensity : ℚ
  bloomTintR : ℚ
  bloomTintG : ℚ
  bloomTintB : ℚ
  bloomTintA : ℚ
  bloomBlendMode : ℚ
  bloomSaturation : ℚ
  bProtectHighlights : ℚ
  highlightProtection : ℚ
  softFocusIntensity : ℚ
  softFocusOverlayMultiplier : ℚ
  softFocusBlendStrength : ℚ
  softFocusSoftLightMultiplier : ℚ
  softFocusFinalBlend : ℚ
  bUseAdaptiveScaling : ℚ
  bShowBloomOnly : ℚ
  bShowGammaCompensation : ℚ
  bIsGameWorld : ℚ
  gameModeBloomScale : ℚ
  target : Tex
  viewport : IntRect

/-- One `AddFullscreenPass` event, one constructor per call site. -/
inductive Pass
  | brightPass (p : BrightPassParams)
  | glareStreak (p : GlareStreakParams)
  | glareAccumulate (p : GlareAccumParams)
  | glareBlurH (p : BlurParams)
  | glareBlurV (p : BlurParams)
  | kawaseDown (p : KawaseDownParams)
  | kawaseUp (p : KawaseUpParams)
  | kawaseUpFinal (p : KawaseUpParams)
  | blurH (p : BlurParams)
  | blurV (p : BlurParams)
  | composite (p : CompositeParams)

/-- What `PostProcessPass_RenderThread` returns: the scene color unchanged, or
the composited output render target. -/
inductive Ret
  | source
  | output (vp : Viewport) (tex : Tex)

/-- The observable result of one pipeline run: the ordered list of full-screen
passes added to the render graph, and the returned screen-pass texture. -/
structure RunResult where
  passes : List Pass
  ret : Ret

/-- The viewport-geometry computation of the bright pass
(ClassicBloomSubsystem.cpp lines 314-323). -/
structure BrightPassGeo where
  divisor : Int
  extent : IntPoint
  rect : IntRect

/-- `DownsampleScale` clamp, `Divisor`, `DownsampledExtent`, `DownsampledRect`
exactly as computed at lines 314-323. -/
def brightPassGeometry (viewRect : IntRect) (downsampleScale : ℚ) : BrightPassGeo :=
  let s := clampQ downsampleScale (1/4) 2
  let divisor := max 1 (roundToInt (2 / s))
  let e := divideAndRoundUpP ⟨viewRect.width, viewRect.height⟩ divisor
  { divisor := divisor, extent := e, rect := ⟨⟨0, 0⟩, e⟩ }

/-- Effective bright-pass threshold (lines 354-361): Soft Focus forces 0.01. -/
def effectiveThreshold (cfg : UBloomFXComponent) : ℚ :=
  if cfg.BloomMode = .SoftFocus then 1/100 else cfg.BloomThreshold

/-- Bright-pass shader parameters (lines 371-391). -/
def brightPassParams (sceneColor : SPTexture) (geo : BrightPassGeo)
    (cfg : UBloomFXComponent) : BrightPassParams :=
  { sceneColorTexture := .sceneColor
    inputViewportSize := ⟨sceneColor.viewRect.width, sceneColor.viewRect.height⟩
    outputViewportSize := ⟨geo.rect.width, geo.rect.height⟩
    svPositionToInputTextureUV :=
      ⟨⟨geo.extent, geo.rect⟩, ⟨sceneColor.extent, sceneColor.viewRect⟩⟩
    bloomThreshold := effectiveThreshold cfg
    bloomIntensity := 1
    target := .brightPass
    viewport := geo.rect }

/-- The per-streak extraction passes of DirectionalGlare mode (lines 449-475). -/
def glareStreakPassList (cfg : UBloomFXComponent) (geo : BrightPassGeo) : List Pass :=
  let numStreaks := clampI cfg.GlareStreakCount 2 16
  let streakLength := clampQ (cfg.GlareStreakLength : ℚ) 5 200
  let scaledStreakLength := streakLength / (geo.divisor : ℚ)
  let falloff := clampQ cfg.GlareFalloff (1/2) 10
  let angleStep := (360 : ℚ) / (numStreaks : ℚ)
  (List.range numStreaks.toNat).map fun (n : Nat) =>
    Pass.glareStreak
      { sourceTexture := .brightPass
        bufferSize := geo.extent
        streakAngleDeg := angleStep * (n : ℚ) + cfg.GlareRotationOffset
        streakLength := scaledStreakLength
        streakFalloff := falloff
        target := .streak (n : Int)
        viewport := geo.rect }

/-- The first glare accumulation pass (lines 486-505): up to 4 streaks, unused
inputs padded with streak 0. -/
def glareFirstAccum (numStreaks : Int) (geo : BrightPassGeo) : GlareAccumParams :=
  let streaksToProcess := min numStreaks 4
  { streakTexture0 := .streak 0
    streakTexture1 := if 2 ≤ streaksToProcess then .streak 1 else .streak 0
    streakTexture2 := if 3 ≤ streaksToProcess then .streak 2 else .streak 0
    streakTexture3 := if 4 ≤ streaksToProcess then .streak 3 else .streak 0
    viewportSize := ⟨geo.rect.width, geo.rect.height⟩
    numStreaks := streaksToProcess
    target := .glareAccum
    viewport := geo.rect }

/-- The batch loop `for (BatchStart = 4; BatchStart < NumStreaks; BatchStart += 3)`
(lines 512-539), returning the emitted passes and the final accumulation texture. -/
def glareAccumBatchList (numStreaks : Int) (geo : BrightPassGeo) (prevAccum : Tex)
    (batchStart : Int) : List Pass × Tex :=
  if h : batchStart < numStreaks then
    let streaksInBatch := min 3 (numStreaks - batchStart)
    let nextAccum : Tex := .glareAccumBatch batchStart
    let p : GlareAccumParams :=
      { streakTexture0 := prevAccum
        streakTexture1 := .streak batchStart
        streakTexture2 :=
          if 2 ≤ streaksInBatch then .streak (batchStart + 1) else .streak batchStart
        streakTexture3 :=
          if 3 ≤ streaksInBatch then .streak (batchStart + 2) else .streak batchStart
        viewportSize := ⟨geo.rect.width, geo.rect.height⟩
        numStreaks := 1 + streaksInBatch
        target := nextAccum
        viewport := geo.rect }
    let rest := glareAccumBatchList numStreaks geo nextAccum (batchStart + 3)
    (Pass.glareAccumulate p :: rest.1, rest.2)
  else ([], prevAccum)
termination_by (numStreaks - batchStart).toNat
decreasing_by omega

/-- All glare accumulation passes (lines 483-542) and the final accumulation
texture. -/
def glareAccumPasses (numStreaks : Int) (geo : BrightPassGeo) : List Pass × Tex :=
  let firstP := glareFirstAccum numStreaks geo
  if 4 < numStreaks then
    let rest := glareAccumBatchList numStreaks geo .glareAccum 4
    (Pass.glareAccumulate firstP :: rest.1, rest.2)
  else ([Pass.glareAccumulate firstP], .glareAccum)

/-- The light horizontal+vertical glare blur (lines 545-576), radius
`BloomSize * 0.05`. -/
def glareBlurPassList (cfg : UBloomFXComponent) (geo : BrightPassGeo)
    (accumTex : Tex) : List Pass :=
  [ Pass.glareBlurH
      { sourceTexture := accumTex
        bufferSize := geo.extent
        blurDirectionX := 1, blurDirectionY := 0
        blurRadius := cfg.BloomSize * (5/100)
        target := .glareBlurTemp
        viewport := geo.rect },
    Pass.glareBlurV
      { sourceTexture := .glareBlurTemp
        bufferSize := geo.extent
        blurDirectionX := 0, blurDirectionY := 1
        blurRadius := cfg.BloomSize * (5/100)
        target := .glareBlurred
        viewport := geo.rect } ]

/-- The Kawase mip-size chain (lines 628-653): each level ceil-halves extent and
rectangle size, both clamped to a minimum of 1. -/
def kawaseMipChain (extent : IntPoint) (rect : IntRect) : Nat → List (IntPoint × IntRect)
  | 0 => []
  | n + 1 =>
    let e1 := divideAndRoundUpP extent 2
    let rSize := divideAndRoundUpP ⟨rect.width, rect.height⟩ 2
    let e2 : IntPoint := ⟨max e1.x 1, max e1.y 1⟩
    let r2 : IntRect := ⟨⟨0, 0⟩, ⟨max rSize.x 1, max rSize.y 1⟩⟩
    (e2, r2) :: kawaseMipChain e2 r2 n

/-- Placeholder mip geometry for out-of-range indexing (never reached on the
paths the theorems cover). -/
def dflMip : IntPoint × IntRect := (⟨0, 0⟩, ⟨⟨0, 0⟩, ⟨0, 0⟩⟩)

/-- The Kawase downsample passes (lines 661-701): the first source is the scene
color buffer itself, each later pass reads the previous mip; Karis averaging is
marked only at mip 0. -/
def kawaseDownPassList (bloomThreshold knee : ℚ)
    (mips : List (IntPoint × IntRect)) (srcTex : Tex) (srcExtent : IntPoint)
    (srcRect : IntRect) (mip : Int) : List Pass :=
  match mips with
  | [] => []
  | (e, r) :: rest =>
    let p : KawaseDownParams :=
      { sourceTexture := srcTex
        sourceSize := srcExtent
        outputSize := e
        svPositionToSourceUV := ⟨⟨e, r⟩, ⟨srcExtent, srcRect⟩⟩
        bloomThreshold := bloomThreshold
        thresholdKnee := knee
        mipLevel := mip
        bUseKarisAverage := if mip = 0 then 1 else 0
        target := .kawaseMip mip
        viewport := r }
    Pass.kawaseDown p :: kawaseDownPassList bloomThreshold knee rest (.kawaseMip mip) e r (mip + 1)

/-- The Kawase upsample passes (lines 733-757): from mip level `m` down to 0,
each blending the running chain with the stored downsample mip of that level. -/
def kawaseUpPassList (filterRadius : ℚ) (mips : List (IntPoint × IntRect)) :
    Nat → Tex → List Pass
  | m, srcTex =>
    let g := mips.getD m dflMip
    let p : KawaseUpParams :=
      { sourceTexture := srcTex
        previousMipTexture := .kawaseMip (m : Int)
        outputSize := g.1
        filterRadius := filterRadius
        target := .kawaseUpsample (m : Int)
        viewport := g.2 }
    match m with
    | 0 => [Pass.kawaseUp p]
    | Nat.succ m2 => Pass.kawaseUp p :: kawaseUpPassList filterRadius mips m2 (.kawaseUpsample (m : Int))

/-- The whole Kawase branch (lines 603-797), returning its passes and the bloom
result texture. -/
def kawaseBlurPhase (cfg : UBloomFXComponent) (sceneColor : SPTexture)
    (geo : BrightPassGeo) : List Pass × Tex :=
  let mipCount := clampI cfg.KawaseMipCount 3 8
  let filterRadius := clampQ cfg.KawaseFilterRadius (1/10000) (1/100)
  let thresholdKnee :=
    if cfg.bKawaseSoftThreshold then clampQ cfg.KawaseThresholdKnee 0 1 else 0
  let mips := kawaseMipChain geo.extent geo.rect mipCount.toNat
  let downPasses :=
    kawaseDownPassList cfg.BloomThreshold thresholdKnee mips .sceneColor sceneColor.extent
      sceneColor.viewRect 0
  let numUpsampleTextures := mipCount.toNat - 1
  if 0 < numUpsampleTextures then
    let upPasses :=
      kawaseUpPassList filterRadius mips (mipCount.toNat - 2) (.kawaseMip (mipCount - 1))
    let finalP : KawaseUpParams :=
      { sourceTexture := .kawaseUpsample 0
        previousMipTexture := .kawaseMip 0
        outputSize := geo.extent
        filterRadius := filterRadius
        target := .kawaseBlurred
        viewport := geo.rect }
    (downPasses ++ upPasses ++ [Pass.kawaseUpFinal finalP], .kawaseBlurred)
  else
    (downPasses, if 0 < mipCount.toNat then .kawaseMip 0 else .brightPass)

/-- The standard separable-blur iterations (lines 808-856): each iteration is a
horizontal pass into the temp buffer then a vertical pass into the result,
ping-ponging the source. -/
def standardBlurIter (bloomSize : ℚ) (geo : BrightPassGeo) :
    Nat → Tex → List Pass
  | 0, _ => []
  | n + 1, src =>
    Pass.blurH
      { sourceTexture := src
        bufferSize := geo.extent
        blurDirectionX := 1, blurDirectionY := 0
        blurRadius := bloomSize * (1/10)
        target := .blurTemp
        viewport := geo.rect } ::
    Pass.blurV
      { sourceTexture := .blurTemp
        bufferSize := geo.extent
        blurDirectionX := 0, blurDirectionY := 1
        blurRadius := bloomSize * (1/10)
        target := .blurred
        viewport := geo.rect } ::
    standardBlurIter bloomSize geo n .blurred

/-- The whole standard blur branch (lines 801-857). -/
def standardBlurPassList (cfg : UBloomFXComponent) (geo : BrightPassGeo) : List Pass :=
  standardBlurIter cfg.BloomSize geo (clampI cfg.BlurPasses 1 4).toNat .brightPass

/-- Steps 2 and 3 of the pipeline (lines 402-857): the blur/spread strategy
dispatch with its shader-availability fallbacks, returning the emitted passes
and the bloom result texture (`BlurredBloomTexture`). -/
def blurPhase (cfg : UBloomFXComponent) (shaders : Shaders) (sceneColor : SPTexture)
    (geo : BrightPassGeo) : List Pass × Tex :=
  let glare : List Pass × Option Tex :=
    if cfg.BloomMode = .DirectionalGlare then
      if shaders.glareStreakValid then
        let streakPs := glareStreakPassList cfg geo
        if shaders.glareAccumulateValid then
          let numStreaks := clampI cfg.GlareStreakCount 2 16
          let accum := glareAccumPasses numStreaks geo
          (streakPs ++ accum.1 ++ glareBlurPassList cfg geo accum.2, some .glareBlurred)
        else (streakPs, none)
      else ([], none)
    else ([], none)
  match glare with
  | (ps, some t) => (ps, t)
  | (ps, none) =>
    if cfg.BloomMode = .Kawase then
      if shaders.kawaseDownsampleValid && shaders.kawaseUpsampleValid then
        let kawase := kawaseBlurPhase cfg sceneColor geo
        (ps ++ kawase.1, kawase.2)
      else (ps ++ standardBlurPassList cfg geo, .blurred)
    else (ps ++ standardBlurPassList cfg geo, .blurred)

/-- Step 4 output selection (lines 861-870): the override render target if
valid, otherwise a new texture matching the scene color's layout and rect. -/
def outputTarget (sceneColor : SPTexture) (ov : Option OverrideRT) : Viewport × Tex :=
  match ov with
  | some o => (⟨o.extent, o.viewRect⟩, .overrideOutput)
  | none => (⟨sceneColor.extent, sceneColor.viewRect⟩, .createdOutput)

/-- Composite shader parameters (lines 876-963). -/
def compositeParams (cfg : UBloomFXComponent) (sceneColor : SPTexture)
    (geo : BrightPassGeo) (outVp : Viewport) (outTex : Tex) (bloomTex : Tex)
    (isGameWorld : Bool) : CompositeParams :=
  let bUseSoftFocus := cfg.BloomMode = .SoftFocus
  { sceneColorTexture := .sceneColor
    bloomTexture := bloomTex
    outputViewportSize := ⟨outVp.rect.width, outVp.rect.height⟩
    svPositionToSceneColorUV := ⟨outVp, ⟨sceneColor.extent, sceneColor.viewRect⟩⟩
    svPositionToBloomUV := ⟨outVp, ⟨geo.extent, geo.rect⟩⟩
    bloomIntensity := if bUseSoftFocus then 0 else cfg.BloomIntensity
    bloomTintR := cfg.BloomTintR
    bloomTintG := cfg.BloomTintG
    bloomTintB := cfg.BloomTintB
    bloomTintA := b2q cfg.bUseSceneColor
    bloomBlendMode := blendModeToFloat cfg.BloomBlendMode
    bloomSaturation := cfg.BloomSaturation
    bProtectHighlights := b2q cfg.bProtectHighlights
    highlightProtection := cfg.HighlightProtection
    softFocusIntensity := if bUseSoftFocus then cfg.BloomIntensity else 0
    softFocusOverlayMultiplier := cfg.SoftFocusOverlayMultiplier
    softFocusBlendStrength := cfg.SoftFocusBlendStrength
    softFocusSoftLightMultiplier := cfg.SoftFocusSoftLightMultiplier
    softFocusFinalBlend := cfg.SoftFocusFinalBlend
    bUseAdaptiveScaling := b2q cfg.bUseAdaptiveBrightnessScaling
    bShowBloomOnly := b2q cfg.bShowBloomOnly
    bShowGammaCompensation := b2q cfg.bShowGammaCompensation
    bIsGameWorld := b2q isGameWorld
    gameModeBloomScale := cfg.GameModeBloomScale
    target := outTex
    viewport := outVp.rect }

/-- The two coordinate transforms the composite shader receives. -/
def compositeCoordinateTransforms (p : CompositeParams) : List CoordTransform :=
  [p.svPositionToSceneColorUV, p.svPositionToBloomUV]

/-- Graph construction once an active component is selected
(lines 235-995): viewport validation, bright-pass geometry and pass, the blur
phase, and the composite pass. -/
def buildGraph (cfg : UBloomFXComponent) (sceneColor : SPTexture) (shaders : Shaders)
    (overrideOut : Option OverrideRT) (isGameWorld : Bool) : RunResult :=
  let viewRect := sceneColor.viewRect
  if viewRect.width ≤ 0 ∨ viewRect.height ≤ 0 then ⟨[], .source⟩
  else
    let geo := brightPassGeometry viewRect cfg.DownsampleScale
    if geo.rect.width ≤ 0 ∨ geo.rect.height ≤ 0 then ⟨[], .source⟩
    else if ¬shaders.brightPassValid then ⟨[], .source⟩
    else
      let bp := brightPassParams sceneColor geo cfg
      let blur := blurPhase cfg shaders sceneColor geo
      let outT := outputTarget sceneColor overrideOut
      let cp := compositeParams cfg sceneColor geo outT.1 outT.2 blur.2 isGameWorld
      if ¬shaders.compositeValid then ⟨Pass.brightPass bp :: blur.1, .source⟩
      else ⟨Pass.brightPass bp :: blur.1 ++ [Pass.composite cp], .output outT.1 outT.2⟩

/-- The active-component scan (lines 217-227): the first registered entry whose
weak pointer is valid and whose component is active. -/
def findActiveComponent (components : List CompEntry) : Option UBloomFXComponent :=
  (components.find? fun e => e.isValidPtr && e.isActive).map (·.comp)

/-- `FClassicBloomSceneViewExtension::PostProcessPass_RenderThread`
(lines 167-996): the activation gate followed by graph construction. -/
def PostProcessPass_RenderThread (view : ViewState) (subsystemValid : Bool)
    (components : List CompEntry) (sceneColor : SPTexture) (shaders : Shaders)
    (overrideOut : Option OverrideRT) : RunResult :=
  if ¬sceneColor.isValid then ⟨[], .source⟩
  else if view.bIsReflectionCapture ∨ view.bIsSceneCapture ∨ ¬view.bIsViewInfo then
    ⟨[], .source⟩
  else if ¬view.showRendering ∨ ¬view.showPostProcessing ∨ view.showWireframe then
    ⟨[], .source⟩
  else if ¬view.hasShaderMap then ⟨[], .source⟩
  else if ¬subsystemValid then ⟨[], .source⟩
  else
    match findActiveComponent components with
    | none => ⟨[], .source⟩
    | some cfg =>
      if cfg.BloomIntensity ≤ 0 then ⟨[], .source⟩
      else buildGraph cfg sceneColor shaders overrideOut view.bIsGameWorld

/-- Component pointers, compared by identity in the registration array. -/
abbrev CompPtr := Nat

/-- `UClassicBloomSubsystem::RegisterBloomComponent` (lines 1018-1024):
null check then `TArray::AddUnique`. -/
def RegisterBloomComponent (bloomComponents : List CompPtr)
    (component : Option CompPtr) : List CompPtr :=
  match component with
  | none => bloomComponents
  | some c => if c ∈ bloomComponents then bloomComponents else bloomComponents ++ [c]

/-- `UClassicBloomSubsystem::UnregisterBloomComponent` (lines 1026-1032):
null check then `TArray::Remove` (removes every matching entry). -/
def UnregisterBloomComponent (bloomComponents : List CompPtr)
    (component : Option CompPtr) : List CompPtr :=
  match component with
  | none => bloomComponents
  | some c => bloomComponents.filter fun x => x ≠ c

/-! ### Arithmetic helper lemmas -/

lemma cppDiv_eq_ediv {a b : Int} (ha : 0 ≤ a) (hb : 0 ≤ b) : cppDiv a b = a / b :=
  Int.tdiv_eq_ediv ha hb

lemma divideAndRoundUp_eq_ediv {a d : Int} (ha : 0 < a) (hd : 0 < d) :
    divideAndRoundUp a d = (a + d - 1) / d :=
  cppDiv_eq_ediv (by omega) (by omega)

lemma one_le_divideAndRoundUp {a d : Int} (ha : 0 < a) (hd : 0 < d) :
    1 ≤ divideAndRoundUp a d := by
  rw [divideAndRoundUp_eq_ediv ha hd]
  exact (Int.le_ediv_iff_mul_le hd).mpr (by omega)

/-- For positive operands, `FMath::DivideAndRoundUp` is the ceiling of the
rational quotient. -/
lemma divideAndRoundUp_eq_ceil {a d : Int} (ha : 0 < a) (hd : 0 < d) :
    divideAndRoundUp a d = ⌈(a : ℚ) / (d : ℚ)⌉ := by
  rw [divideAndRoundUp_eq_ediv ha hd, eq_comm, Int.ceil_eq_iff]
  have hd0 : (0 : ℚ) < (d : ℚ) := by exact_mod_cast hd
  have hqr := Int.ediv_add_emod (a + d - 1) d
  have hr0 : 0 ≤ (a + d - 1) % d := Int.emod_nonneg _ (by omega)
  have hrd : (a + d - 1) % d < d := Int.emod_lt_of_pos _ hd
  constructor
  · rw [lt_div_iff₀ hd0]
    have h : ((a + d - 1) / d - 1) * d < a := by nlinarith
    exact_mod_cast h
  · rw [div_le_iff₀ hd0]
    have h : a ≤ ((a + d - 1) / d) * d := by nlinarith
    exact_mod_cast h

lemma clampI_bounds {x lo hi : Int} (h : lo ≤ hi) :
    lo ≤ clampI x lo hi ∧ clampI x lo hi ≤ hi := by
  unfold clampI
  split
  · omega
  · split <;> omega

lemma one_le_brightPassGeometry_divisor (r : IntRect) (s : ℚ) :
    1 ≤ (brightPassGeometry r s).divisor :=
  le_max_left 1 _

lemma brightPassGeometry_extent_x {r : IntRect} {s : ℚ} (hw : 0 < r.width) :
    1 ≤ (brightPassGeometry r s).extent.x := by
  have hd := one_le_brightPassGeometry_divisor r s
  simp only [brightPassGeometry, divideAndRoundUpP] at hd ⊢
  exact one_le_divideAndRoundUp hw (by omega)

lemma brightPassGeometry_extent_y {r : IntRect} {s : ℚ} (hh : 0 < r.height) :
    1 ≤ (brightPassGeometry r s).extent.y := by
  have hd := one_le_brightPassGeometry_divisor r s
  simp only [brightPassGeometry, divideAndRoundUpP] at hd ⊢
  exact one_le_divideAndRoundUp hh (by omega)

lemma brightPassGeometry_rect (r : IntRect) (s : ℚ) :
    (brightPassGeometry r s).rect = ⟨⟨0, 0⟩, (brightPassGeometry r s).extent⟩ := rfl

lemma brightPassGeometry_rect_width (r : IntRect) (s : ℚ) :
    (brightPassGeometry r s).rect.width = (brightPassGeometry r s).extent.x := by
  simp [brightPassGeometry, IntRect.width]

lemma brightPassGeometry_rect_height (r : IntRect) (s : ℚ) :
    (brightPassGeometry r s).rect.height = (brightPassGeometry r s).extent.y := by
  simp [brightPassGeometry, IntRect.height]

/-! ### C8 -/

/-- C8: registration is idempotent — registering a configuration already in the
set leaves it unchanged, the set stays duplicate-free, unregistering an absent
configuration leaves the set unchanged, and registering or unregistering a null
reference is a no-op. -/
theorem c8_registration_idempotent (set : List CompPtr) (c : CompPtr)
    (oc : Option CompPtr) :
    (c ∈ set → RegisterBloomComponent set (some c) = set) ∧
    (c ∉ set → UnregisterBloomComponent set (some c) = set) ∧
    RegisterBloomComponent set none = set ∧
    UnregisterBloomComponent set none = set ∧
    (set.Nodup →
      (RegisterBloomComponent set oc).Nodup ∧ (UnregisterBloomComponent set oc).Nodup) := by
  refine ⟨fun h => by simp [RegisterBloomComponent, h], fun h => ?_, rfl, rfl, fun hnd => ?_⟩
  · unfold UnregisterBloomComponent
    exact List.filter_eq_self.mpr fun x hx => by
      simp only [ne_eq, decide_eq_true_eq]
      exact fun he => h (he ▸ hx)
  · cases oc with
    | none => exact ⟨hnd, hnd⟩
    | some c2 =>
      constructor
      · show (if c2 ∈ set then set else set ++ [c2]).Nodup
        split
        · exact hnd
        · rename_i hmem
          exact List.Nodup.append hnd (List.nodup_singleton c2)
            (List.disjoint_singleton.mpr hmem)
      · exact hnd.filter _

/-- C8 witness: concrete instances of each clause. -/
theorem c8_registration_idempotent_witness :
    RegisterBloomComponent [0, 1] (some 1) = [0, 1] ∧
    UnregisterBloomComponent [0, 1] (some 2) = [0, 1] ∧
    (RegisterBloomComponent [0, 1] (some 2)).Nodup := by
  refine ⟨(c8_registration_idempotent [0, 1] 1 (some 2)).1 (by decide),
          (c8_registration_idempotent [0, 1] 2 (some 2)).2.1 (by decide),
          ((c8_registration_idempotent [0, 1] 1 (some 2)).2.2.2.2 (by decide)).1⟩

/-! ### C2 -/

/-- C2: for every source rectangle with positive width and height and every
downsample scale, the bright-pass geometry computes
`divisor = max(1, round(2 / clamp(s, 0.25, 2)))`, the output extent is the
ceiling quotient of the source rectangle size by the divisor, the output
rectangle is origin-(0,0) with size equal to the extent, and both dimensions
are at least 1; and when the source rectangle or the resolved rectangle is
degenerate, the pipeline returns the source unchanged with no passes. -/
theorem c2_bright_pass_geometry :
    (∀ (viewRect : IntRect) (s : ℚ), 0 < viewRect.width → 0 < viewRect.height →
      (brightPassGeometry viewRect s).divisor
          = max 1 (roundToInt (2 / clampQ s (1/4) 2)) ∧
      (brightPassGeometry viewRect s).extent.x
          = ⌈(viewRect.width : ℚ) / ((brightPassGeometry viewRect s).divisor : ℚ)⌉ ∧
      (brightPassGeometry viewRect s).extent.y
          = ⌈(viewRect.height : ℚ) / ((brightPassGeometry viewRect s).divisor : ℚ)⌉ ∧
      (brightPassGeometry viewRect s).rect
          = ⟨⟨0, 0⟩, (brightPassGeometry viewRect s).extent⟩ ∧
      1 ≤ (brightPassGeometry viewRect s).extent.x ∧
      1 ≤ (brightPassGeometry viewRect s).extent.y) ∧
    (∀ (cfg : UBloomFXComponent) (sceneColor : SPTexture) (shaders : Shaders)
       (ov : Option OverrideRT) (igw : Bool),
      (sceneColor.viewRect.width ≤ 0 ∨ sceneColor.viewRect.height ≤ 0 ∨
       (brightPassGeometry sceneColor.viewRect cfg.DownsampleScale).rect.width ≤ 0 ∨
       (brightPassGeometry sceneColor.viewRect cfg.DownsampleScale).rect.height ≤ 0) →
      buildGraph cfg sceneColor shaders ov igw = ⟨[], .source⟩) := by
  constructor
  · intro viewRect s hw hh
    have hd := one_le_brightPassGeometry_divisor viewRect s
    refine ⟨rfl, ?_, ?_, rfl, brightPassGeometry_extent_x hw, brightPassGeometry_extent_y hh⟩
    · show divideAndRoundUp viewRect.width _ = _
      exact divideAndRoundUp_eq_ceil hw (by omega)
    · show divideAndRoundUp viewRect.height _ = _
      exact divideAndRoundUp_eq_ceil hh (by omega)
  · intro cfg sceneColor shaders ov igw h
    by_cases h1 : sceneColor.viewRect.width ≤ 0 ∨ sceneColor.viewRect.height ≤ 0
    · simp [buildGraph, h1]
    · have h2 : (brightPassGeometry sceneColor.viewRect cfg.DownsampleScale).rect.width ≤ 0 ∨
          (brightPassGeometry sceneColor.viewRect cfg.DownsampleScale).rect.height ≤ 0 := by
        rcases h with h | h | h | h
        · exact absurd (Or.inl h) h1
        · exact absurd (Or.inr h) h1
        · exact Or.inl h
        · exact Or.inr h
      simp [buildGraph, h1, h2]

/-- C2 witness: the geometry clause at a 100-by-50 rectangle with scale 1, and
the passthrough clause at a degenerate source rectangle. -/
theorem c2_bright_pass_geometry_witness :
    ((brightPassGeometry ⟨⟨0, 0⟩, ⟨100, 50⟩⟩ 1).divisor
        = max 1 (roundToInt (2 / clampQ 1 (1/4) 2)) ∧
     (brightPassGeometry ⟨⟨0, 0⟩, ⟨100, 50⟩⟩ 1).extent.x
        = ⌈((⟨⟨0, 0⟩, ⟨100, 50⟩⟩ : IntRect).width : ℚ)
            / ((brightPassGeometry ⟨⟨0, 0⟩, ⟨100, 50⟩⟩ 1).divisor : ℚ)⌉ ∧
     (brightPassGeometry ⟨⟨0, 0⟩, ⟨100, 50⟩⟩ 1).extent.y
        = ⌈((⟨⟨0, 0⟩, ⟨100, 50⟩⟩ : IntRect).height : ℚ)
            / ((brightPassGeometry ⟨⟨0, 0⟩, ⟨100, 50⟩⟩ 1).divisor : ℚ)⌉ ∧
     (brightPassGeometry ⟨⟨0, 0⟩, ⟨100, 50⟩⟩ 1).rect
        = ⟨⟨0, 0⟩, (brightPassGeometry ⟨⟨0, 0⟩, ⟨100, 50⟩⟩ 1).extent⟩ ∧
     1 ≤ (brightPassGeometry ⟨⟨0, 0⟩, ⟨100, 50⟩⟩ 1).extent.x ∧
     1 ≤ (brightPassGeometry ⟨⟨0, 0⟩, ⟨100, 50⟩⟩ 1).extent.y) ∧
    (∀ (cfg : UBloomFXComponent) (shaders : Shaders),
      buildGraph cfg ⟨true, ⟨64, 64⟩, ⟨⟨0, 0⟩, ⟨0, 64⟩⟩⟩ shaders none false
        = ⟨[], .source⟩) :=
  ⟨c2_bright_pass_geometry.1 ⟨⟨0, 0⟩, ⟨100, 50⟩⟩ 1 (by decide) (by decide),
   fun cfg shaders =>
     c2_bright_pass_geometry.2 cfg ⟨true, ⟨64, 64⟩, ⟨⟨0, 0⟩, ⟨0, 64⟩⟩⟩ shaders none false
       (Or.inl (by decide))⟩

/-! ### Example values used by witnesses -/

/-- A concrete component configuration (the header defaults) used by witnesses. -/
def exampleCfg : UBloomFXComponent :=
  { BloomMode := .Standard, BloomIntensity := 2, BloomThreshold := 4/5, BloomSize := 4
    bUseSceneColor := true, BloomTintR := 1, BloomTintG := 1, BloomTintB := 1
    BloomBlendMode := .Screen, BloomSaturation := 1, bProtectHighlights := false
    HighlightProtection := 1/2, DownsampleScale := 1, BlurPasses := 1, BlurSamples := 5
    bHighQualityUpsampling := false, GlareStreakCount := 6, GlareStreakLength := 40
    GlareRotationOffset := 0, GlareFalloff := 3, KawaseMipCount := 5
    KawaseFilterRadius := 1/500, bKawaseSoftThreshold := true, KawaseThresholdKnee := 1/2
    SoftFocusOverlayMultiplier := 1/2, SoftFocusBlendStrength := 33/100
    SoftFocusSoftLightMultiplier := 2/5, SoftFocusFinalBlend := 1/4
    PostProcessPass := .Tonemap, bUseAdaptiveBrightnessScaling := false
    GameModeBloomScale := 1, bEnableDebugLogging := false, bShowBloomOnly := false
    bShowGammaCompensation := false }

/-- A concrete 128x128 scene color buffer. -/
def exampleSceneColor : SPTexture := ⟨true, ⟨128, 128⟩, ⟨⟨0, 0⟩, ⟨128, 128⟩⟩⟩

/-- The bright-pass geometry of the example buffer at scale 1. -/
def exampleGeo : BrightPassGeo := brightPassGeometry exampleSceneColor.viewRect 1

/-- A concrete output viewport. -/
def exampleVp : Viewport := ⟨⟨128, 128⟩, ⟨⟨0, 0⟩, ⟨128, 128⟩⟩⟩

/-! ### C4 -/

/-- C4: before any pass is recorded, the pipeline returns the source buffer
unchanged whenever the view is a reflection or scene capture or not a standard
viewport view, rendering or post-processing is disabled or wireframe is active,
the source buffer is invalid or its rectangle degenerate, no registered
configuration is valid and active, or the selected configuration's intensity is
nonpositive. -/
theorem c4_activation_gate (view : ViewState) (subsystemValid : Bool)
    (components : List CompEntry) (sceneColor : SPTexture) (shaders : Shaders)
    (ov : Option OverrideRT)
    (h : ¬sceneColor.isValid
       ∨ view.bIsReflectionCapture ∨ view.bIsSceneCapture ∨ ¬view.bIsViewInfo
       ∨ ¬view.showRendering ∨ ¬view.showPostProcessing ∨ view.showWireframe
       ∨ sceneColor.viewRect.width ≤ 0 ∨ sceneColor.viewRect.height ≤ 0
       ∨ (∀ e ∈ components, ¬(e.isValidPtr = true ∧ e.isActive = true))
       ∨ (∃ cfg, findActiveComponent components = some cfg ∧ cfg.BloomIntensity ≤ 0)) :
    PostProcessPass_RenderThread view subsystemValid components sceneColor shaders ov
      = ⟨[], .source⟩ := by
  unfold PostProcessPass_RenderThread
  split_ifs with h1 h2 h3 h4 h5
  all_goals try rfl
  rcases h with h | h | h | h | h | h | h | h | h | h | h
  · exact absurd h1 h
  · exact absurd (Or.inl h) h2
  · exact absurd (Or.inr (Or.inl h)) h2
  · exact absurd (Or.inr (Or.inr h)) h2
  · exact absurd (Or.inl h) h3
  · exact absurd (Or.inr (Or.inl h)) h3
  · exact absurd (Or.inr (Or.inr h)) h3
  · cases hfind : findActiveComponent components with
    | none => rfl
    | some cfg =>
      by_cases h6 : cfg.BloomIntensity ≤ 0
      · simp [h6]
      · simp [h6, buildGraph,
          show sceneColor.viewRect.width ≤ 0 ∨ sceneColor.viewRect.height ≤ 0 from Or.inl h]
  · cases hfind : findActiveComponent components with
    | none => rfl
    | some cfg =>
      by_cases h6 : cfg.BloomIntensity ≤ 0
      · simp [h6]
      · simp [h6, buildGraph,
          show sceneColor.viewRect.width ≤ 0 ∨ sceneColor.viewRect.height ≤ 0 from Or.inr h]
  · have hnone : findActiveComponent components = none := by
      unfold findActiveComponent
      rw [List.find?_eq_none.mpr]
      · rfl
      · intro e he
        simp only [Bool.and_eq_true]
        exact fun hp => h e he ⟨hp.1, hp.2⟩
    simp [hnone]
  · obtain ⟨cfg2, hcfg2, hint⟩ := h
    simp [hcfg2, hint]

/-- C4 witness: a reflection-capture view is passed through unchanged. -/
theorem c4_activation_gate_witness :
    PostProcessPass_RenderThread ⟨true, false, true, true, true, false, true, false⟩ true []
      exampleSceneColor ⟨true, true, true, true, true, true, true⟩ none = ⟨[], .source⟩ :=
  c4_activation_gate _ _ _ _ _ _ (Or.inr (Or.inl (by decide)))

/-! ### C7 -/

/-- C7: Soft Focus forces the bright-pass threshold to 0.01 and routes the
configured intensity to the composite's soft-focus channel with bloom intensity
zero; every other mode uses the configured threshold and intensity with a zero
soft-focus channel. -/
theorem c7_soft_focus_channels (cfg : UBloomFXComponent) (sceneColor : SPTexture)
    (geo : BrightPassGeo) (outVp : Viewport) (outTex bloomTex : Tex) (igw : Bool) :
    (cfg.BloomMode = .SoftFocus →
      (brightPassParams sceneColor geo cfg).bloomThreshold = 1/100 ∧
      (compositeParams cfg sceneColor geo outVp outTex bloomTex igw).bloomIntensity = 0 ∧
      (compositeParams cfg sceneColor geo outVp outTex bloomTex igw).softFocusIntensity
        = cfg.BloomIntensity) ∧
    (cfg.BloomMode ≠ .SoftFocus →
      (brightPassParams sceneColor geo cfg).bloomThreshold = cfg.BloomThreshold ∧
      (compositeParams cfg sceneColor geo outVp outTex bloomTex igw).bloomIntensity
        = cfg.BloomIntensity ∧
      (compositeParams cfg sceneColor geo outVp outTex bloomTex igw).softFocusIntensity
        = 0) := by
  constructor <;> intro h <;>
    simp [brightPassParams, effectiveThreshold, compositeParams, h]

/-- C7 witness: both branches at concrete configurations. -/
theorem c7_soft_focus_channels_witness :
    ((brightPassParams exampleSceneColor exampleGeo
        { exampleCfg with BloomMode := .SoftFocus }).bloomThreshold = 1/100 ∧
     (compositeParams { exampleCfg with BloomMode := .SoftFocus } exampleSceneColor exampleGeo
        exampleVp .createdOutput .blurred false).bloomIntensity = 0 ∧
     (compositeParams { exampleCfg with BloomMode := .SoftFocus } exampleSceneColor exampleGeo
        exampleVp .createdOutput .blurred false).softFocusIntensity
       = ({ exampleCfg with BloomMode := .SoftFocus } : UBloomFXComponent).BloomIntensity) ∧
    ((compositeParams exampleCfg exampleSceneColor exampleGeo exampleVp .createdOutput
        .blurred false).bloomIntensity = exampleCfg.BloomIntensity) :=
  ⟨(c7_soft_focus_channels { exampleCfg with BloomMode := .SoftFocus } exampleSceneColor
      exampleGeo exampleVp .createdOutput .blurred false).1 rfl,
   ((c7_soft_focus_channels exampleCfg exampleSceneColor exampleGeo exampleVp .createdOutput
      .blurred false).2 (by decide)).2.1⟩

/-! ### C10 -/

/-- C10: the constructed graph and the returned output are independent of the
`BlurSamples` and `bHighQualityUpsampling` fields: two runs whose configurations
differ only in those two fields produce identical pass lists and results. -/
theorem c10_graph_independent_of_quality_fields (cfg : UBloomFXComponent)
    (sceneColor : SPTexture) (shaders : Shaders) (ov : Option OverrideRT) (igw : Bool)
    (a₁ a₂ : Int) (b₁ b₂ : Bool) :
    buildGraph { cfg with BlurSamples := a₁, bHighQualityUpsampling := b₁ }
        sceneColor shaders ov igw
      = buildGraph { cfg with BlurSamples := a₂, bHighQualityUpsampling := b₂ }
        sceneColor shaders ov igw := by
  cases cfg
  simp only [buildGraph, blurPhase, brightPassGeometry, brightPassParams, effectiveThreshold,
    glareStreakPassList, glareAccumPasses, glareFirstAccum, glareBlurPassList, kawaseBlurPhase,
    kawaseMipChain, kawaseDownPassList, kawaseUpPassList, standardBlurPassList, standardBlurIter,
    compositeParams, outputTarget]

/-! ### C9 -/

/-- The standard blur pass list always starts with a horizontal blur pass,
since the pass count is clamped to at least 1. -/
lemma standardBlurPassList_cons (cfg : UBloomFXComponent) (geo : BrightPassGeo) :
    ∃ bp rest, standardBlurPassList cfg geo = Pass.blurH bp :: rest := by
  unfold standardBlurPassList
  have h1 : 1 ≤ clampI cfg.BlurPasses 1 4 := (clampI_bounds (by omega)).1
  obtain ⟨n, hn⟩ : ∃ n, (clampI cfg.BlurPasses 1 4).toNat = n + 1 :=
    ⟨(clampI cfg.BlurPasses 1 4).toNat - 1, by omega⟩
  rw [hn]
  exact ⟨_, _, rfl⟩

/-- A concrete view passing every gate. -/
def exampleView : ViewState := ⟨false, false, true, true, true, false, true, false⟩

/-- C9: the separable-blur program's availability is never checked — the whole
pipeline result is invariant under it, and on the Standard path the blur passes
are still recorded and the pipeline still produces an output even when the blur
program is unavailable. -/
theorem c9_blur_shader_unchecked :
    (∀ (view : ViewState) (sv : Bool) (comps : List CompEntry) (sceneColor : SPTexture)
       (shaders : Shaders) (ov : Option OverrideRT) (b₁ b₂ : Bool),
      PostProcessPass_RenderThread view sv comps sceneColor
          { shaders with blurValid := b₁ } ov
        = PostProcessPass_RenderThread view sv comps sceneColor
          { shaders with blurValid := b₂ } ov) ∧
    (∀ (cfg : UBloomFXComponent) (sceneColor : SPTexture) (shaders : Shaders)
       (ov : Option OverrideRT) (igw : Bool),
      cfg.BloomMode = .Standard → 0 < sceneColor.viewRect.width →
      0 < sceneColor.viewRect.height → shaders.brightPassValid = true →
      shaders.compositeValid = true →
      (∃ p ∈ (buildGraph cfg sceneColor { shaders with blurValid := false } ov igw).passes,
         ∃ bp, p = Pass.blurH bp) ∧
      (buildGraph cfg sceneColor { shaders with blurValid := false } ov igw).ret
        = .output (outputTarget sceneColor ov).1 (outputTarget sceneColor ov).2) := by
  constructor
  · intro view sv comps sceneColor shaders ov b₁ b₂
    cases shaders
    rfl
  · intro cfg sceneColor shaders ov igw hmode hw hh hbp hc
    have hgx := brightPassGeometry_extent_x (s := cfg.DownsampleScale) hw
    have hgy := brightPassGeometry_extent_y (s := cfg.DownsampleScale) hh
    have hrw := brightPassGeometry_rect_width sceneColor.viewRect cfg.DownsampleScale
    have hrh := brightPassGeometry_rect_height sceneColor.viewRect cfg.DownsampleScale
    have hcond1 : ¬(sceneColor.viewRect.width ≤ 0 ∨ sceneColor.viewRect.height ≤ 0) := by
      omega
    have hcond2 :
        ¬((brightPassGeometry sceneColor.viewRect cfg.DownsampleScale).rect.width ≤ 0 ∨
          (brightPassGeometry sceneColor.viewRect cfg.DownsampleScale).rect.height ≤ 0) := by
      omega
    obtain ⟨bp, rest, hblur⟩ :=
      standardBlurPassList_cons cfg (brightPassGeometry sceneColor.viewRect cfg.DownsampleScale)
    constructor
    · refine ⟨Pass.blurH bp, ?_, bp, rfl⟩
      simp [buildGraph, hcond1, hcond2, hbp, hc, blurPhase, hmode, hblur]
    · simp [buildGraph, hcond1, hcond2, hbp, hc]

/-- C9 witness: the Standard-path clause at a concrete configuration with the
blur program unavailable. -/
theorem c9_blur_shader_unchecked_witness :
    (∃ p ∈ (buildGraph exampleCfg exampleSceneColor
        { brightPassValid := true, blurValid := false, glareStreakValid := true
          glareAccumulateValid := true, kawaseDownsampleValid := true
          kawaseUpsampleValid := true, compositeValid := true } none false).passes,
       ∃ bp, p = Pass.blurH bp) ∧
    (buildGraph exampleCfg exampleSceneColor
        { brightPassValid := true, blurValid := false, glareStreakValid := true
          glareAccumulateValid := true, kawaseDownsampleValid := true
          kawaseUpsampleValid := true, compositeValid := true } none false).ret
      = .output (outputTarget exampleSceneColor none).1 (outputTarget exampleSceneColor none).2 :=
  c9_blur_shader_unchecked.2 exampleCfg exampleSceneColor
    ⟨true, true, true, true, true, true, true⟩ none false rfl (by decide) (by decide) rfl rfl

/-! ### C5 -/

/-- C5: shader unavailability fails closed — a missing bright-pass program
returns the source with no passes, a missing composite program returns the
source, a missing glare or Kawase program abandons that strategy and uses the
Standard separable-blur path (the streak passes already recorded remain in the
graph when only the accumulate program is missing). -/
theorem c5_shader_unavailability_fallbacks :
    (∀ (view : ViewState) (sv : Bool) (comps : List CompEntry) (sceneColor : SPTexture)
       (shaders : Shaders) (ov : Option OverrideRT), shaders.brightPassValid = false →
      PostProcessPass_RenderThread view sv comps sceneColor shaders ov = ⟨[], .source⟩) ∧
    (∀ (view : ViewState) (sv : Bool) (comps : List CompEntry) (sceneColor : SPTexture)
       (shaders : Shaders) (ov : Option OverrideRT), shaders.compositeValid = false →
      (PostProcessPass_RenderThread view sv comps sceneColor shaders ov).ret = .source) ∧
    (∀ (cfg : UBloomFXComponent) (sceneColor : SPTexture) (shaders : Shaders)
       (ov : Option OverrideRT) (igw : Bool),
      cfg.BloomMode = .DirectionalGlare → shaders.glareStreakValid = false →
      buildGraph cfg sceneColor shaders ov igw
        = buildGraph { cfg with BloomMode := .Standard } sceneColor shaders ov igw) ∧
    (∀ (cfg : UBloomFXComponent) (sceneColor : SPTexture) (shaders : Shaders)
       (ov : Option OverrideRT) (igw : Bool),
      cfg.BloomMode = .Kawase →
      (shaders.kawaseDownsampleValid = false ∨ shaders.kawaseUpsampleValid = false) →
      buildGraph cfg sceneColor shaders ov igw
        = buildGraph { cfg with BloomMode := .Standard } sceneColor shaders ov igw) ∧
    (∀ (cfg : UBloomFXComponent) (sceneColor : SPTexture) (shaders : Shaders)
       (geo : BrightPassGeo),
      cfg.BloomMode = .DirectionalGlare → shaders.glareStreakValid = true →
      shaders.glareAccumulateValid = false →
      blurPhase cfg shaders sceneColor geo
        = (glareStreakPassList cfg geo ++ standardBlurPassList cfg geo, .blurred)) := by
  refine ⟨?_, ?_, ?_, ?_, ?_⟩
  · intro view sv comps sceneColor shaders ov h
    unfold PostProcessPass_RenderThread
    split_ifs <;> try rfl
    cases hf : findActiveComponent comps with
    | none => rfl
    | some cfg =>
      by_cases h6 : cfg.BloomIntensity ≤ 0
      · simp [h6]
      · simp [h6, buildGraph, h]
  · intro view sv comps sceneColor shaders ov h
    unfold PostProcessPass_RenderThread
    split_ifs <;> try rfl
    cases hf : findActiveComponent comps with
    | none => rfl
    | some cfg =>
      by_cases h6 : cfg.BloomIntensity ≤ 0
      · simp [h6]
      · simp [h6, buildGraph, h, apply_ite RunResult.ret]
  · intro cfg sceneColor shaders ov igw hmode hs
    cases cfg
    simp only at hmode
    subst hmode
    simp [buildGraph, blurPhase, effectiveThreshold, brightPassParams, compositeParams,
      standardBlurPassList, hs]
  · intro cfg sceneColor shaders ov igw hmode hs
    cases cfg
    simp only at hmode
    subst hmode
    rcases hs with hs | hs <;>
      simp [buildGraph, blurPhase, effectiveThreshold, brightPassParams, compositeParams,
        standardBlurPassList, hs]
  · intro cfg sceneColor shaders geo hmode hstreak haccum
    cases cfg
    simp only at hmode
    subst hmode
    simp [blurPhase, hstreak, haccum]

/-- C5 witness: each fallback clause at a concrete input. -/
theorem c5_shader_unavailability_fallbacks_witness :
    (PostProcessPass_RenderThread exampleView true [] exampleSceneColor
        ⟨false, true, true, true, true, true, true⟩ none = ⟨[], .source⟩) ∧
    ((PostProcessPass_RenderThread exampleView true [] exampleSceneColor
        ⟨true, true, true, true, true, true, false⟩ none).ret = .source) ∧
    (buildGraph { exampleCfg with BloomMode := .DirectionalGlare } exampleSceneColor
        ⟨true, true, false, true, true, true, true⟩ none false
      = buildGraph { exampleCfg with BloomMode := .Standard }
          exampleSceneColor ⟨true, true, false, true, true, true, true⟩ none false) ∧
    (buildGraph { exampleCfg with BloomMode := .Kawase } exampleSceneColor
        ⟨true, true, true, true, false, true, true⟩ none false
      = buildGraph { exampleCfg with BloomMode := .Standard }
          exampleSceneColor ⟨true, true, true, true, false, true, true⟩ none false) ∧
    (blurPhase { exampleCfg with BloomMode := .DirectionalGlare }
        ⟨true, true, true, false, true, true, true⟩ exampleSceneColor exampleGeo
      = (glareStreakPassList { exampleCfg with BloomMode := .DirectionalGlare } exampleGeo
          ++ standardBlurPassList { exampleCfg with BloomMode := .DirectionalGlare } exampleGeo,
         .blurred)) :=
  ⟨c5_shader_unavailability_fallbacks.1 exampleView true [] exampleSceneColor
      ⟨false, true, true, true, true, true, true⟩ none rfl,
   c5_shader_unavailability_fallbacks.2.1 exampleView true [] exampleSceneColor
      ⟨true, true, true, true, true, true, false⟩ none rfl,
   c5_shader_unavailability_fallbacks.2.2.1 { exampleCfg with BloomMode := .DirectionalGlare }
      exampleSceneColor ⟨true, true, false, true, true, true, true⟩ none false rfl rfl,
   c5_shader_unavailability_fallbacks.2.2.2.1 { exampleCfg with BloomMode := .Kawase }
      exampleSceneColor ⟨true, true, true, true, false, true, true⟩ none false rfl (Or.inl rfl),
   c5_shader_unavailability_fallbacks.2.2.2.2 { exampleCfg with BloomMode := .DirectionalGlare }
      exampleSceneColor ⟨true, true, true, false, true, true, true⟩ exampleGeo rfl rfl rfl⟩

/-! ### C6 -/

/-- Whether a pass is the composite pass. -/
def Pass.isComposite : Pass → Bool
  | .composite _ => true
  | _ => false

/-- Every pass of the glare accumulation batch loop is an accumulate pass. -/
lemma glareAccumBatchList_mem (K : Int) (geo : BrightPassGeo) :
    ∀ (fuel : Nat) (prev : Tex) (b : Int), (K - b).toNat = fuel →
      ∀ p ∈ (glareAccumBatchList K geo prev b).1, ∃ q, p = Pass.glareAccumulate q := by
  intro fuel
  induction fuel using Nat.strong_induction_on with
  | _ fuel ih =>
    intro prev b hfuel p hp
    rw [glareAccumBatchList] at hp
    split at hp
    · rename_i hb
      rcases List.mem_cons.mp hp with rfl | hp2
      · exact ⟨_, rfl⟩
      · exact ih (K - (b + 3)).toNat (by omega) _ (b + 3) rfl p hp2
    · simp at hp

/-- Every glare accumulation pass is an accumulate pass. -/
lemma glareAccumPasses_mem (K : Int) (geo : BrightPassGeo) :
    ∀ p ∈ (glareAccumPasses K geo).1, ∃ q, p = Pass.glareAccumulate q := by
  intro p hp
  unfold glareAccumPasses at hp
  split_ifs at hp with h4
  · rcases List.mem_cons.mp hp with rfl | hp2
    · exact ⟨_, rfl⟩
    · exact glareAccumBatchList_mem K geo _ .glareAccum 4 rfl p hp2
  · rcases List.mem_cons.mp hp with rfl | hp2
    · exact ⟨_, rfl⟩
    · simp at hp2

/-- Every Kawase downsample-loop pass is a downsample pass. -/
lemma kawaseDownPassList_mem (th kn : ℚ) (mips : List (IntPoint × IntRect)) :
    ∀ (src : Tex) (se : IntPoint) (sr : IntRect) (m : Int),
      ∀ p ∈ kawaseDownPassList th kn mips src se sr m, ∃ q, p = Pass.kawaseDown q := by
  induction mips with
  | nil => intro src se sr m p hp; simp [kawaseDownPassList] at hp
  | cons hd tl ihm =>
    intro src se sr m p hp
    rw [kawaseDownPassList] at hp
    rcases List.mem_cons.mp hp with rfl | hp2
    · exact ⟨_, rfl⟩
    · exact ihm _ _ _ _ p hp2

/-- Every Kawase upsample-loop pass is an upsample pass. -/
lemma kawaseUpPassList_mem (fr : ℚ) (mips : List (IntPoint × IntRect)) :
    ∀ (m : Nat) (src : Tex),
      ∀ p ∈ kawaseUpPassList fr mips m src, ∃ q, p = Pass.kawaseUp q := by
  intro m
  induction m with
  | zero =>
    intro src p hp
    rw [kawaseUpPassList] at hp
    rcases List.mem_cons.mp hp with rfl | h
    · exact ⟨_, rfl⟩
    · simp at h
  | succ m2 ihm =>
    intro src p hp
    rw [kawaseUpPassList] at hp
    rcases List.mem_cons.mp hp with rfl | hp2
    · exact ⟨_, rfl⟩
    · exact ihm _ p hp2

/-- Every standard blur-loop pass is a blur pass. -/
lemma standardBlurIter_mem (bs : ℚ) (geo : BrightPassGeo) :
    ∀ (n : Nat) (src : Tex), ∀ p ∈ standardBlurIter bs geo n src,
      (∃ q, p = Pass.blurH q) ∨ (∃ q, p = Pass.blurV q) := by
  intro n
  induction n with
  | zero => intro src p hp; simp [standardBlurIter] at hp
  | succ n2 ihn =>
    intro src p hp
    rw [standardBlurIter] at hp
    rcases List.mem_cons.mp hp with rfl | hp2
    · exact Or.inl ⟨_, rfl⟩
    · rcases List.mem_cons.mp hp2 with rfl | hp3
      · exact Or.inr ⟨_, rfl⟩
      · exact ihn _ p hp3

/-- No pass produced by the Kawase branch is a composite pass. -/
lemma kawaseBlurPhase_not_composite (cfg : UBloomFXComponent) (sceneColor : SPTexture)
    (geo : BrightPassGeo) :
    ∀ p ∈ (kawaseBlurPhase cfg sceneColor geo).1, p.isComposite = false := by
  intro p hp
  unfold kawaseBlurPhase at hp
  simp only [List.mem_append, List.mem_singleton] at hp
  split at hp
  · simp only [List.mem_append, List.mem_singleton] at hp
    rcases hp with (hp | hp) | hp
    · obtain ⟨q, rfl⟩ := kawaseDownPassList_mem _ _ _ _ _ _ _ p hp
      rfl
    · obtain ⟨q, rfl⟩ := kawaseUpPassList_mem _ _ _ _ p hp
      rfl
    · subst hp
      rfl
  · simp only [List.mem_append, List.mem_singleton] at hp
    obtain ⟨q, rfl⟩ := kawaseDownPassList_mem _ _ _ _ _ _ _ p hp
    rfl

/-- No pass produced by the blur/spread phase is a composite pass. -/
lemma blurPhase_not_composite (cfg : UBloomFXComponent) (shaders : Shaders)
    (sceneColor : SPTexture) (geo : BrightPassGeo) :
    ∀ p ∈ (blurPhase cfg shaders sceneColor geo).1, p.isComposite = false := by
  intro p hp
  have hstd : ∀ p2 ∈ standardBlurPassList cfg geo, p2.isComposite = false := by
    intro p2 hp2
    unfold standardBlurPassList at hp2
    rcases standardBlurIter_mem _ _ _ _ p2 hp2 with ⟨q, rfl⟩ | ⟨q, rfl⟩ <;> rfl
  have hstreak : ∀ p2 ∈ glareStreakPassList cfg geo, p2.isComposite = false := by
    intro p2 hp2
    obtain ⟨n, _, rfl⟩ := List.mem_map.mp hp2
    rfl
  by_cases hm1 : cfg.BloomMode = EBloomMode.DirectionalGlare
  · by_cases hs1 : shaders.glareStreakValid = true
    · by_cases hs2 : shaders.glareAccumulateValid = true
      · simp only [blurPhase, hm1, hs1, hs2, if_true, reduceIte] at hp
        rcases List.mem_append.mp hp with hp | hp
        · rcases List.mem_append.mp hp with hp | hp
          · exact hstreak p hp
          · obtain ⟨q, rfl⟩ := glareAccumPasses_mem _ _ p hp
            rfl
        · unfold glareBlurPassList at hp
          rcases List.mem_cons.mp hp with rfl | hp2
          · rfl
          · rcases List.mem_cons.mp hp2 with rfl | hp3
            · rfl
            · simp at hp3
      · simp only [blurPhase, hm1, hs1, hs2, if_true, reduceIte, Bool.false_eq_true,
          if_false] at hp
        rcases List.mem_append.mp hp with hp | hp
        · exact hstreak p hp
        · exact hstd p hp
    · simp only [blurPhase, hm1, hs1, reduceIte, Bool.false_eq_true, if_false,
        List.nil_append] at hp
      exact hstd p hp
  · by_cases hm2 : cfg.BloomMode = EBloomMode.Kawase
    · by_cases hs3 : (shaders.kawaseDownsampleValid && shaders.kawaseUpsampleValid) = true
      · simp only [blurPhase, hm1, hm2, hs3, reduceIte, if_true, if_false,
          List.nil_append] at hp
        exact kawaseBlurPhase_not_composite cfg sceneColor geo p hp
      · simp only [blurPhase, hm1, hm2, hs3, reduceIte, if_true, if_false,
          List.nil_append] at hp
        exact hstd p hp
    · simp only [blurPhase, hm1, hm2, reduceIte, if_false, List.nil_append] at hp
      exact hstd p hp

/-- C6 counterexample: at a concrete input the composite shader receives two
coordinate transform parameters, not three. -/
theorem c6_three_transforms_counterexample :
    ¬ ((compositeCoordinateTransforms (compositeParams exampleCfg exampleSceneColor exampleGeo
        exampleVp .createdOutput .blurred false)).length = 3) := by
  simp [compositeCoordinateTransforms]

/-- C6 (amended): the Compositor builds two Coordinate Transforms — output to
source and output to bloom — both keyed off the output Viewport as the
destination, before issuing its single full-screen composite pass, which is the
final pass of the graph. -/
theorem c6_compositor_transforms (cfg : UBloomFXComponent) (sceneColor : SPTexture)
    (shaders : Shaders) (ov : Option OverrideRT) (igw : Bool)
    (hw : 0 < sceneColor.viewRect.width) (hh : 0 < sceneColor.viewRect.height)
    (hbp : shaders.brightPassValid = true) (hc : shaders.compositeValid = true) :
    (buildGraph cfg sceneColor shaders ov igw).passes
        = Pass.brightPass (brightPassParams sceneColor
              (brightPassGeometry sceneColor.viewRect cfg.DownsampleScale) cfg)
            :: (blurPhase cfg shaders sceneColor
              (brightPassGeometry sceneColor.viewRect cfg.DownsampleScale)).1
            ++ [Pass.composite (compositeParams cfg sceneColor
              (brightPassGeometry sceneColor.viewRect cfg.DownsampleScale)
              (outputTarget sceneColor ov).1 (outputTarget sceneColor ov).2
              (blurPhase cfg shaders sceneColor
                (brightPassGeometry sceneColor.viewRect cfg.DownsampleScale)).2 igw)] ∧
    (∀ p ∈ (blurPhase cfg shaders sceneColor
        (brightPassGeometry sceneColor.viewRect cfg.DownsampleScale)).1,
      p.isComposite = false) ∧
    compositeCoordinateTransforms (compositeParams cfg sceneColor
        (brightPassGeometry sceneColor.viewRect cfg.DownsampleScale)
        (outputTarget sceneColor ov).1 (outputTarget sceneColor ov).2
        (blurPhase cfg shaders sceneColor
          (brightPassGeometry sceneColor.viewRect cfg.DownsampleScale)).2 igw)
      = [⟨(outputTarget sceneColor ov).1, ⟨sceneColor.extent, sceneColor.viewRect⟩⟩,
         ⟨(outputTarget sceneColor ov).1,
          ⟨(brightPassGeometry sceneColor.viewRect cfg.DownsampleScale).extent,
           (brightPassGeometry sceneColor.viewRect cfg.DownsampleScale).rect⟩⟩] ∧
    (∀ t ∈ compositeCoordinateTransforms (compositeParams cfg sceneColor
        (brightPassGeometry sceneColor.viewRect cfg.DownsampleScale)
        (outputTarget sceneColor ov).1 (outputTarget sceneColor ov).2
        (blurPhase cfg shaders sceneColor
          (brightPassGeometry sceneColor.viewRect cfg.DownsampleScale)).2 igw),
      t.dest = (outputTarget sceneColor ov).1) := by
  have hgx := brightPassGeometry_extent_x (s := cfg.DownsampleScale) hw
  have hgy := brightPassGeometry_extent_y (s := cfg.DownsampleScale) hh
  have hrw := brightPassGeometry_rect_width sceneColor.viewRect cfg.DownsampleScale
  have hrh := brightPassGeometry_rect_height sceneColor.viewRect cfg.DownsampleScale
  have hcond1 : ¬(sceneColor.viewRect.width ≤ 0 ∨ sceneColor.viewRect.height ≤ 0) := by omega
  have hcond2 :
      ¬((brightPassGeometry sceneColor.viewRect cfg.DownsampleScale).rect.width ≤ 0 ∨
        (brightPassGeometry sceneColor.viewRect cfg.DownsampleScale).rect.height ≤ 0) := by
    omega
  refine ⟨?_, blurPhase_not_composite cfg shaders sceneColor _, rfl, ?_⟩
  · simp [buildGraph, hcond1, hcond2, hbp, hc]
  · intro t ht
    rcases List.mem_cons.mp ht with rfl | ht2
    · rfl
    · rcases List.mem_cons.mp ht2 with rfl | ht3
      · rfl
      · simp at ht3

/-- C6 witness: the amended statement at a concrete configuration. -/
theorem c6_compositor_transforms_witness :
    (buildGraph exampleCfg exampleSceneColor ⟨true, true, true, true, true, true, true⟩
          none false).passes
        = Pass.brightPass (brightPassParams exampleSceneColor
              (brightPassGeometry exampleSceneColor.viewRect exampleCfg.DownsampleScale)
              exampleCfg)
            :: (blurPhase exampleCfg ⟨true, true, true, true, true, true, true⟩
              exampleSceneColor
              (brightPassGeometry exampleSceneColor.viewRect exampleCfg.DownsampleScale)).1
            ++ [Pass.composite (compositeParams exampleCfg exampleSceneColor
              (brightPassGeometry exampleSceneColor.viewRect exampleCfg.DownsampleScale)
              (outputTarget exampleSceneColor none).1 (outputTarget exampleSceneColor none).2
              (blurPhase exampleCfg ⟨true, true, true, true, true, true, true⟩
                exampleSceneColor
                (brightPassGeometry exampleSceneColor.viewRect
                  exampleCfg.DownsampleScale)).2 false)] ∧
    (∀ p ∈ (blurPhase exampleCfg ⟨true, true, true, true, true, true, true⟩ exampleSceneColor
        (brightPassGeometry exampleSceneColor.viewRect exampleCfg.DownsampleScale)).1,
      p.isComposite = false) ∧
    compositeCoordinateTransforms (compositeParams exampleCfg exampleSceneColor
        (brightPassGeometry exampleSceneColor.viewRect exampleCfg.DownsampleScale)
        (outputTarget exampleSceneColor none).1 (outputTarget exampleSceneColor none).2
        (blurPhase exampleCfg ⟨true, true, true, true, true, true, true⟩ exampleSceneColor
          (brightPassGeometry exampleSceneColor.viewRect exampleCfg.DownsampleScale)).2 false)
      = [⟨(outputTarget exampleSceneColor none).1,
          ⟨exampleSceneColor.extent, exampleSceneColor.viewRect⟩⟩,
         ⟨(outputTarget exampleSceneColor none).1,
          ⟨(brightPassGeometry exampleSceneColor.viewRect exampleCfg.DownsampleScale).extent,
           (brightPassGeometry exampleSceneColor.viewRect exampleCfg.DownsampleScale).rect⟩⟩] ∧
    (∀ t ∈ compositeCoordinateTransforms (compositeParams exampleCfg exampleSceneColor
        (brightPassGeometry exampleSceneColor.viewRect exampleCfg.DownsampleScale)
        (outputTarget exampleSceneColor none).1 (outputTarget exampleSceneColor none).2
        (blurPhase exampleCfg ⟨true, true, true, true, true, true, true⟩ exampleSceneColor
          (brightPassGeometry exampleSceneColor.viewRect exampleCfg.DownsampleScale)).2 false),
      t.dest = (outputTarget exampleSceneColor none).1) :=
  c6_compositor_transforms exampleCfg exampleSceneColor ⟨true, true, true, true, true, true, true⟩
    none false (by decide) (by decide) rfl rfl

/-! ### C1 -/

/-- Extracts the parameters of a glare accumulation pass. -/
def Pass.accumParams? : Pass → Option GlareAccumParams
  | .glareAccumulate p => some p
  | _ => none

/-- The four streak-texture inputs an accumulation pass binds. -/
def accumBoundTexes (p : GlareAccumParams) : List Tex :=
  [p.streakTexture0, p.streakTexture1, p.streakTexture2, p.streakTexture3]

/-- In DirectionalGlare mode with both glare programs available, the
accumulation passes of the blur phase are exactly those of
`glareAccumPasses` (the streak and blur passes contribute none). -/
lemma blurPhase_accum_extract (cfg : UBloomFXComponent) (shaders : Shaders)
    (sceneColor : SPTexture) (geo : BrightPassGeo)
    (hmode : cfg.BloomMode = .DirectionalGlare)
    (hs : shaders.glareStreakValid = true) (ha : shaders.glareAccumulateValid = true) :
    ((blurPhase cfg shaders sceneColor geo).1).filterMap Pass.accumParams?
      = ((glareAccumPasses (clampI cfg.GlareStreakCount 2 16) geo).1).filterMap
          Pass.accumParams? := by
  simp only [blurPhase, hmode, hs, ha, reduceIte, if_true]
  rw [List.filterMap_append, List.filterMap_append]
  have h1 : (glareStreakPassList cfg geo).filterMap Pass.accumParams? = [] := by
    rw [List.filterMap_eq_nil_iff]
    intro a ha2
    obtain ⟨n, _, rfl⟩ := List.mem_map.mp ha2
    rfl
  have h2 : (glareBlurPassList cfg geo
      (glareAccumPasses (clampI cfg.GlareStreakCount 2 16) geo).2).filterMap
      Pass.accumParams? = [] := rfl
  rw [h1, h2]
  simp

set_option maxHeartbeats 2000000 in
/-- C1: in DirectionalGlare mode with the streak and accumulate programs
available, for every clamped streak count K in [2,16]: every streak index
bound by an accumulation pass is in range; every one of the K streaks is bound
by some accumulation pass; the first pass binds streaks 0..min(K,4)-1 in order,
padding the unused inputs with streak 0, with its streak count set to min(K,4);
and the j-th subsequent pass binds the previous accumulation plus the streaks
from index 4+3j, up to 3 of them, advancing by 3 per pass. -/
theorem c1_glare_accumulation_bindings (cfg : UBloomFXComponent) (shaders : Shaders)
    (sceneColor : SPTexture) (geo : BrightPassGeo)
    (hmode : cfg.BloomMode = .DirectionalGlare)
    (hs : shaders.glareStreakValid = true) (ha : shaders.glareAccumulateValid = true) :
    (∀ q ∈ ((blurPhase cfg shaders sceneColor geo).1).filterMap Pass.accumParams?,
       ∀ t ∈ accumBoundTexes q, ∀ i : Int, t = Tex.streak i →
         0 ≤ i ∧ i < clampI cfg.GlareStreakCount 2 16) ∧
    (∀ i ∈ Finset.Icc (0 : Int) (clampI cfg.GlareStreakCount 2 16 - 1),
       ∃ q ∈ ((blurPhase cfg shaders sceneColor geo).1).filterMap Pass.accumParams?,
         Tex.streak i ∈ accumBoundTexes q) ∧
    (∀ q, (((blurPhase cfg shaders sceneColor geo).1).filterMap Pass.accumParams?).get? 0
        = some q →
       (accumBoundTexes q).take (min (clampI cfg.GlareStreakCount 2 16) 4).toNat
           = (List.range (min (clampI cfg.GlareStreakCount 2 16) 4).toNat).map
               (fun n => Tex.streak (n : Int)) ∧
       (∀ t ∈ (accumBoundTexes q).drop (min (clampI cfg.GlareStreakCount 2 16) 4).toNat,
           t = Tex.streak 0) ∧
       q.numStreaks = min (clampI cfg.GlareStreakCount 2 16) 4) ∧
    (∀ (j : Nat) (q : GlareAccumParams),
       ((((blurPhase cfg shaders sceneColor geo).1).filterMap
           Pass.accumParams?).tail).get? j = some q →
       q.streakTexture0
           = (if j = 0 then Tex.glareAccum
              else Tex.glareAccumBatch (4 + 3 * ((j : Int) - 1))) ∧
       q.target = Tex.glareAccumBatch (4 + 3 * (j : Int)) ∧
       q.numStreaks
           = 1 + min 3 (clampI cfg.GlareStreakCount 2 16 - (4 + 3 * (j : Int))) ∧
       ((accumBoundTexes q).drop 1).take
           (min 3 (clampI cfg.GlareStreakCount 2 16 - (4 + 3 * (j : Int)))).toNat
         = (List.range
             (min 3 (clampI cfg.GlareStreakCount 2 16 - (4 + 3 * (j : Int)))).toNat).map
             (fun n => Tex.streak (4 + 3 * (j : Int) + (n : Int)))) := by
  rw [blurPhase_accum_extract cfg shaders sceneColor geo hmode hs ha]
  have hK1 : 2 ≤ clampI cfg.GlareStreakCount 2 16 := (clampI_bounds (by omega)).1
  have hK2 : clampI cfg.GlareStreakCount 2 16 ≤ 16 := (clampI_bounds (by omega)).2
  set K := clampI cfg.GlareStreakCount 2 16 with hKdef
  clear_value K
  interval_cases K <;>
    ( refine ⟨?_, ?_, ?_, ?_⟩
      · simp [glareAccumPasses, glareAccumBatchList, glareFirstAccum, Pass.accumParams?,
          accumBoundTexes]
      · intro i hi
        rw [Finset.mem_Icc] at hi
        obtain ⟨hi1, hi2⟩ := hi
        interval_cases i <;>
          simp [glareAccumPasses, glareAccumBatchList, glareFirstAccum, Pass.accumParams?,
            accumBoundTexes]
      · intro q hq
        simp [glareAccumPasses, glareAccumBatchList, glareFirstAccum,
          Pass.accumParams?] at hq
        first
          | (subst hq
             exact ⟨by rfl, by simp [accumBoundTexes], by rfl⟩)
          | (injection hq with h2
             subst h2
             exact ⟨by rfl, by simp [accumBoundTexes], by rfl⟩)
      · intro j q hjq
        simp [glareAccumPasses, glareAccumBatchList, glareFirstAccum,
          Pass.accumParams?] at hjq
        all_goals rcases j with _ | _ | _ | _ | j
        all_goals try simp only [List.getElem?_cons_zero, List.getElem?_cons_succ,
          List.getElem?_nil, List.get?_cons_zero, List.get?_cons_succ,
          List.get?_nil] at hjq
        all_goals first
          | exact Option.noConfusion hjq
          | (subst hjq
             exact ⟨by rfl, by rfl, by rfl, by rfl⟩)
          | (injection hjq with h2
             subst h2
             exact ⟨by rfl, by rfl, by rfl, by rfl⟩)
          | simp at hjq )

/-- C1 witness: the statement at a concrete 6-streak glare configuration. -/
theorem c1_glare_accumulation_bindings_witness :
    (∀ q ∈ ((blurPhase { exampleCfg with BloomMode := .DirectionalGlare }
          ⟨true, true, true, true, true, true, true⟩ exampleSceneColor exampleGeo).1).filterMap
          Pass.accumParams?,
       ∀ t ∈ accumBoundTexes q, ∀ i : Int, t = Tex.streak i →
         0 ≤ i ∧ i < clampI ({ exampleCfg with
            BloomMode := .DirectionalGlare } : UBloomFXComponent).GlareStreakCount 2 16) ∧
    (∀ i ∈ Finset.Icc (0 : Int) (clampI ({ exampleCfg with
          BloomMode := .DirectionalGlare } : UBloomFXComponent).GlareStreakCount 2 16 - 1),
       ∃ q ∈ ((blurPhase { exampleCfg with BloomMode := .DirectionalGlare }
          ⟨true, true, true, true, true, true, true⟩ exampleSceneColor exampleGeo).1).filterMap
          Pass.accumParams?,
         Tex.streak i ∈ accumBoundTexes q) ∧
    (∀ q, (((blurPhase { exampleCfg with BloomMode := .DirectionalGlare }
          ⟨true, true, true, true, true, true, true⟩ exampleSceneColor
          exampleGeo).1).filterMap Pass.accumParams?).get? 0 = some q →
       (accumBoundTexes q).take (min (clampI ({ exampleCfg with
            BloomMode := .DirectionalGlare } : UBloomFXComponent).GlareStreakCount 2 16)
            4).toNat
           = (List.range (min (clampI ({ exampleCfg with
               BloomMode := .DirectionalGlare } : UBloomFXComponent).GlareStreakCount 2 16)
               4).toNat).map (fun n => Tex.streak (n : Int)) ∧
       (∀ t ∈ (accumBoundTexes q).drop (min (clampI ({ exampleCfg with
            BloomMode := .DirectionalGlare } : UBloomFXComponent).GlareStreakCount 2 16)
            4).toNat, t = Tex.streak 0) ∧
       q.numStreaks = min (clampI ({ exampleCfg with
          BloomMode := .DirectionalGlare } : UBloomFXComponent).GlareStreakCount 2 16) 4) ∧
    (∀ (j : Nat) (q : GlareAccumParams),
       ((((blurPhase { exampleCfg with BloomMode := .DirectionalGlare }
           ⟨true, true, true, true, true, true, true⟩ exampleSceneColor
           exampleGeo).1).filterMap Pass.accumParams?).tail).get? j = some q →
       q.streakTexture0
           = (if j = 0 then Tex.glareAccum
              else Tex.glareAccumBatch (4 + 3 * ((j : Int) - 1))) ∧
       q.target = Tex.glareAccumBatch (4 + 3 * (j : Int)) ∧
       q.numStreaks
           = 1 + min 3 (clampI ({ exampleCfg with
               BloomMode := .DirectionalGlare } : UBloomFXComponent).GlareStreakCount 2 16
               - (4 + 3 * (j : Int))) ∧
       ((accumBoundTexes q).drop 1).take
           (min 3 (clampI ({ exampleCfg with
             BloomMode := .DirectionalGlare } : UBloomFXComponent).GlareStreakCount 2 16
             - (4 + 3 * (j : Int)))).toNat
         = (List.range
             (min 3 (clampI ({ exampleCfg with
               BloomMode := .DirectionalGlare } : UBloomFXComponent).GlareStreakCount 2 16
               - (4 + 3 * (j : Int)))).toNat).map
             (fun n => Tex.streak (4 + 3 * (j : Int) + (n : Int)))) :=
  c1_glare_accumulation_bindings { exampleCfg with BloomMode := .DirectionalGlare }
    ⟨true, true, true, true, true, true, true⟩ exampleSceneColor exampleGeo rfl rfl rfl

/-! ### C3 -/

def Pass.downParams? : Pass → Option KawaseDownParams
  | .kawaseDown p => some p
  | _ => none

def Pass.upParams? : Pass → Option KawaseUpParams
  | .kawaseUp p => some p
  | _ => none

def ceilHalfClamp (p : IntPoint) : IntPoint :=
  ⟨max ⌈(p.x : ℚ) / 2⌉ 1, max ⌈(p.y : ℚ) / 2⌉ 1⟩

lemma kawaseMipChain_length : ∀ (n : Nat) (e : IntPoint) (r : IntRect),
    (kawaseMipChain e r n).length = n := by
  intro n
  induction n with
  | zero => intro e r; rfl
  | succ n2 ih => intro e r; rw [kawaseMipChain]; simp [ih]

lemma kawaseMipChain_closed : ∀ (n : Nat) (e : IntPoint), 1 ≤ e.x → 1 ≤ e.y →
    kawaseMipChain e ⟨⟨0, 0⟩, e⟩ n
      = (List.range n).map (fun i =>
          (ceilHalfClamp^[i + 1] e, (⟨⟨0, 0⟩, ceilHalfClamp^[i + 1] e⟩ : IntRect))) := by
  intro n
  induction n with
  | zero => intro e h1 h2; rfl
  | succ n2 ih =>
    intro e h1 h2
    rw [kawaseMipChain]
    have hw : (⟨⟨0, 0⟩, e⟩ : IntRect).width = e.x := by simp [IntRect.width]
    have hh : (⟨⟨0, 0⟩, e⟩ : IntRect).height = e.y := by simp [IntRect.height]
    have hx : max (divideAndRoundUp e.x 2) 1 = max ⌈(e.x : ℚ) / 2⌉ 1 := by
      rw [divideAndRoundUp_eq_ceil (by omega) (by omega)]
      norm_num
    have hy : max (divideAndRoundUp e.y 2) 1 = max ⌈(e.y : ℚ) / 2⌉ 1 := by
      rw [divideAndRoundUp_eq_ceil (by omega) (by omega)]
      norm_num
    have hstep : (⟨max (divideAndRoundUpP e 2).x 1, max (divideAndRoundUpP e 2).y 1⟩ : IntPoint)
        = ceilHalfClamp e := by
      simp [divideAndRoundUpP, ceilHalfClamp, hx, hy]
    have hstep2 :
        (⟨max (divideAndRoundUpP ⟨(⟨⟨0,0⟩, e⟩ : IntRect).width,
            (⟨⟨0,0⟩, e⟩ : IntRect).height⟩ 2).x 1,
          max (divideAndRoundUpP ⟨(⟨⟨0,0⟩, e⟩ : IntRect).width,
            (⟨⟨0,0⟩, e⟩ : IntRect).height⟩ 2).y 1⟩ : IntPoint) = ceilHalfClamp e := by
      rw [hw, hh]
      exact hstep
    rw [List.range_succ_eq_map]
    simp only [List.map_cons, List.map_map]
    rw [hstep, hstep2, ih (ceilHalfClamp e) (le_max_right _ _) (le_max_right _ _)]
    refine List.cons_eq_cons.mpr ⟨by simp, ?_⟩
    apply List.map_congr_left
    intro i hi
    simp [Function.comp, Function.iterate_succ_apply]

lemma kawaseDownPassList_length (th kn : ℚ) : ∀ (mips : List (IntPoint × IntRect))
    (src : Tex) (se : IntPoint) (sr : IntRect) (m : Int),
    (kawaseDownPassList th kn mips src se sr m).length = mips.length := by
  intro mips
  induction mips with
  | nil => intro src se sr m; rfl
  | cons hd tl ih =>
    intro src se sr m
    rw [kawaseDownPassList]
    simp [ih]

lemma kawaseDownPassList_levels (th kn : ℚ) : ∀ (mips : List (IntPoint × IntRect))
    (src : Tex) (se : IntPoint) (sr : IntRect) (m : Int),
    ((kawaseDownPassList th kn mips src se sr m).filterMap Pass.downParams?).map
        (fun q => (q.mipLevel, q.bUseKarisAverage))
      = (List.range mips.length).map
          (fun (i : Nat) => ((m + (i : Int), if m + (i : Int) = 0 then (1 : Int) else 0))) := by
  intro mips
  induction mips with
  | nil => intro src se sr m; rfl
  | cons hd tl ih =>
    intro src se sr m
    rw [kawaseDownPassList]
    simp only [List.length_cons]
    rw [List.range_succ_eq_map]
    simp only [List.filterMap_cons, Pass.downParams?, List.map_cons, List.map_map]
    rw [ih]
    refine List.cons_eq_cons.mpr ⟨by simp, ?_⟩
    try simp only [List.map_map]
    apply List.map_congr_left
    intro i hi
    simp only [Function.comp]
    have h : m + 1 + (i : Int) = m + (i.succ : Int) := by push_cast; ring
    rw [h]

lemma kawaseDownPassList_head (th kn : ℚ) (e : IntPoint) (r : IntRect)
    (tl : List (IntPoint × IntRect)) (src : Tex) (se : IntPoint) (sr : IntRect) (m : Int) :
    ((kawaseDownPassList th kn ((e, r) :: tl) src se sr m).filterMap Pass.downParams?).head?
      = some { sourceTexture := src, sourceSize := se, outputSize := e
               svPositionToSourceUV := ⟨⟨e, r⟩, ⟨se, sr⟩⟩, bloomThreshold := th
               thresholdKnee := kn, mipLevel := m
               bUseKarisAverage := if m = 0 then 1 else 0
               target := .kawaseMip m, viewport := r } := rfl

lemma kawaseUpPassList_length (fr : ℚ) (mips : List (IntPoint × IntRect)) :
    ∀ (m : Nat) (src : Tex), (kawaseUpPassList fr mips m src).length = m + 1 := by
  intro m
  induction m with
  | zero => intro src; rfl
  | succ m2 ih =>
    intro src
    rw [kawaseUpPassList]
    simp [ih]

lemma kawaseUpPassList_get (fr : ℚ) (mips : List (IntPoint × IntRect)) :
    ∀ (m : Nat) (src : Tex) (j : Nat) (p : Pass), j ≤ m →
      (kawaseUpPassList fr mips m src).get? j = some p →
      p = Pass.kawaseUp
        { sourceTexture := if j = 0 then src else .kawaseUpsample ((m : Int) - (j : Int) + 1)
          previousMipTexture := .kawaseMip ((m : Int) - (j : Int))
          outputSize := (mips.getD (m - j) dflMip).1
          filterRadius := fr
          target := .kawaseUpsample ((m : Int) - (j : Int))
          viewport := (mips.getD (m - j) dflMip).2 } := by
  intro m
  induction m with
  | zero =>
    intro src j p hj hp
    interval_cases j
    rw [kawaseUpPassList] at hp
    simp only [List.get?_cons_zero, Option.some.injEq] at hp
    subst hp
    rfl
  | succ m2 ih =>
    intro src j p hj hp
    rw [kawaseUpPassList] at hp
    rcases j with _ | j2
    · simp only [List.get?_cons_zero, Option.some.injEq] at hp
      subst hp
      simp
    · simp only [List.get?_cons_succ] at hp
      have h2 := ih (.kawaseUpsample ((Nat.succ m2 : Nat) : Int)) j2 p (by omega) hp
      subst h2
      have harith : ((m2 : Int) - (j2 : Int)) = ((Nat.succ m2 : Nat) : Int) - ((Nat.succ j2 : Nat) : Int) := by
        push_cast
        ring
      have harith2 : m2 - j2 = Nat.succ m2 - Nat.succ j2 := by omega
      rcases Nat.eq_zero_or_pos j2 with hj2 | hj2
      · subst hj2
        simp only [if_pos rfl, if_neg (Nat.succ_ne_zero 0)]
        rw [← harith, ← harith2]
        try norm_num
      · rw [if_neg (by omega), if_neg (by omega), ← harith, ← harith2]
        try congr 2
        try push_cast
        try ring

/-- A concrete bright-pass geometry for the Kawase witness. -/
def geoKawase : BrightPassGeo := ⟨2, ⟨64, 64⟩, ⟨⟨0, 0⟩, ⟨64, 64⟩⟩⟩

set_option maxHeartbeats 1600000 in
/-- C3: in Kawase mode with both Kawase programs available, the strategy is the
whole blur phase and returns the Kawase output texture; its pass list is the
downsample chain, then the upsample chain, then one final upsample pass; the mip
chain has `M = clamp(KawaseMipCount, 3, 8)` levels, level `i` being the
`(i+1)`-fold ceil-halving of the bright-pass extent floored at 1x1 with a
rectangle equal to its own extent; the first downsample pass reads the original
scene color buffer (not the bright-pass result) and is the only one marking
Karis averaging; the upsample chain has `M-1` passes, starts from the smallest
mip `M-1`, and pass `j` blends the running chain with the stored downsample mip
of the same level and size; the final pass blends the chain top with mip level 0
into an output sized to the bright-pass buffer. -/
theorem c3_kawase_pipeline (cfg : UBloomFXComponent) (sceneColor : SPTexture)
    (shaders : Shaders) (geo : BrightPassGeo)
    (M : Int) (fr kn : ℚ) (mips : List (IntPoint × IntRect))
    (hmode : cfg.BloomMode = .Kawase)
    (hdn : shaders.kawaseDownsampleValid = true)
    (hup : shaders.kawaseUpsampleValid = true)
    (hrect : geo.rect = ⟨⟨0, 0⟩, geo.extent⟩)
    (hx : 1 ≤ geo.extent.x) (hy : 1 ≤ geo.extent.y)
    (hM : M = clampI cfg.KawaseMipCount 3 8)
    (hfr : fr = clampQ cfg.KawaseFilterRadius (1/10000) (1/100))
    (hkn : kn = (if cfg.bKawaseSoftThreshold then clampQ cfg.KawaseThresholdKnee 0 1 else 0))
    (hmips : mips = kawaseMipChain geo.extent geo.rect M.toNat) :
    blurPhase cfg shaders sceneColor geo = kawaseBlurPhase cfg sceneColor geo ∧
    kawaseBlurPhase cfg sceneColor geo
      = (kawaseDownPassList cfg.BloomThreshold kn mips .sceneColor sceneColor.extent
            sceneColor.viewRect 0
          ++ kawaseUpPassList fr mips (M.toNat - 2) (.kawaseMip (M - 1))
          ++ [Pass.kawaseUpFinal
                { sourceTexture := .kawaseUpsample 0
                  previousMipTexture := .kawaseMip 0
                  outputSize := geo.extent
                  filterRadius := fr
                  target := .kawaseBlurred
                  viewport := geo.rect }],
         .kawaseBlurred) ∧
    (3 ≤ M ∧ M ≤ 8) ∧
    mips.length = M.toNat ∧
    mips = (List.range M.toNat).map (fun (i : Nat) =>
        (ceilHalfClamp^[i + 1] geo.extent,
         (⟨⟨0, 0⟩, ceilHalfClamp^[i + 1] geo.extent⟩ : IntRect))) ∧
    (kawaseDownPassList cfg.BloomThreshold kn mips .sceneColor sceneColor.extent
        sceneColor.viewRect 0).length = M.toNat ∧
    ((kawaseDownPassList cfg.BloomThreshold kn mips .sceneColor sceneColor.extent
          sceneColor.viewRect 0).filterMap Pass.downParams?).map
        (fun q => (q.mipLevel, q.bUseKarisAverage))
      = (List.range M.toNat).map
          (fun (i : Nat) => ((i : Int), if (i : Int) = 0 then (1 : Int) else 0)) ∧
    ((kawaseDownPassList cfg.BloomThreshold kn mips .sceneColor sceneColor.extent
          sceneColor.viewRect 0).filterMap Pass.downParams?).head?
      = some { sourceTexture := .sceneColor
               sourceSize := sceneColor.extent
               outputSize := ceilHalfClamp geo.extent
               svPositionToSourceUV :=
                 ⟨⟨ceilHalfClamp geo.extent, ⟨⟨0, 0⟩, ceilHalfClamp geo.extent⟩⟩,
                  ⟨sceneColor.extent, sceneColor.viewRect⟩⟩
               bloomThreshold := cfg.BloomThreshold
               thresholdKnee := kn
               mipLevel := 0
               bUseKarisAverage := 1
               target := .kawaseMip 0
               viewport := ⟨⟨0, 0⟩, ceilHalfClamp geo.extent⟩ } ∧
    (kawaseUpPassList fr mips (M.toNat - 2) (.kawaseMip (M - 1))).length = M.toNat - 1 ∧
    (∀ (j : Nat) (p : Pass),
        (kawaseUpPassList fr mips (M.toNat - 2) (.kawaseMip (M - 1))).get? j = some p →
        p = Pass.kawaseUp
          { sourceTexture :=
              if j = 0 then .kawaseMip (M - 1)
              else .kawaseUpsample (((M.toNat - 2 : Nat) : Int) - (j : Int) + 1)
            previousMipTexture := .kawaseMip (((M.toNat - 2 : Nat) : Int) - (j : Int))
            outputSize := (mips.getD (M.toNat - 2 - j) dflMip).1
            filterRadius := fr
            target := .kawaseUpsample (((M.toNat - 2 : Nat) : Int) - (j : Int))
            viewport := (mips.getD (M.toNat - 2 - j) dflMip).2 }) := by
  subst hM hfr hkn hmips
  have hb := @clampI_bounds cfg.KawaseMipCount 3 8 (by norm_num)
  have h3 : 3 ≤ clampI cfg.KawaseMipCount 3 8 := hb.1
  have h8 : clampI cfg.KawaseMipCount 3 8 ≤ 8 := hb.2
  have h3t : 3 ≤ (clampI cfg.KawaseMipCount 3 8).toNat := by omega
  refine ⟨?_, ?_, ⟨h3, h8⟩, ?_, ?_, ?_, ?_, ?_, ?_, ?_⟩
  · simp [blurPhase, hmode, hdn, hup]
  · simp only [kawaseBlurPhase]
    rw [if_pos (by omega : 0 < (clampI cfg.KawaseMipCount 3 8).toNat - 1)]
  · exact kawaseMipChain_length _ _ _
  · rw [hrect]
    exact kawaseMipChain_closed _ _ hx hy
  · rw [kawaseDownPassList_length]
    exact kawaseMipChain_length _ _ _
  · rw [kawaseDownPassList_levels, kawaseMipChain_length]
    apply List.map_congr_left
    intro i hi
    simp
  · rw [hrect, kawaseMipChain_closed _ _ hx hy]
    obtain ⟨n, hn⟩ : ∃ n, (clampI cfg.KawaseMipCount 3 8).toNat = n + 1 :=
      ⟨(clampI cfg.KawaseMipCount 3 8).toNat - 1, by omega⟩
    rw [hn, List.range_succ_eq_map]
    simp only [List.map_cons]
    rw [kawaseDownPassList_head]
    simp
  · rw [kawaseUpPassList_length]
    omega
  · intro j p hp
    have hlen := kawaseUpPassList_length
      (clampQ cfg.KawaseFilterRadius (1/10000) (1/100))
      (kawaseMipChain geo.extent geo.rect (clampI cfg.KawaseMipCount 3 8).toNat)
      ((clampI cfg.KawaseMipCount 3 8).toNat - 2)
      (.kawaseMip (clampI cfg.KawaseMipCount 3 8 - 1))
    have hj : j ≤ (clampI cfg.KawaseMipCount 3 8).toNat - 2 := by
      by_contra hcon
      rw [List.get?_eq_none.mpr (by rw [hlen]; omega)] at hp
      exact Option.noConfusion hp
    exact kawaseUpPassList_get _ _ _ _ j p hj hp

/-- C3 witness: the statement at a 64x64 bright-pass geometry with the default
five-level Kawase configuration, all shaders available. -/
theorem c3_kawase_pipeline_witness :
    blurPhase { exampleCfg with BloomMode := .Kawase }
        ⟨true, true, true, true, true, true, true⟩ exampleSceneColor geoKawase
      = kawaseBlurPhase { exampleCfg with BloomMode := .Kawase }
          exampleSceneColor geoKawase ∧
    (kawaseMipChain geoKawase.extent geoKawase.rect
        (clampI ({ exampleCfg with BloomMode := .Kawase } :
          UBloomFXComponent).KawaseMipCount 3 8).toNat).length
      = (clampI ({ exampleCfg with BloomMode := .Kawase } :
          UBloomFXComponent).KawaseMipCount 3 8).toNat :=
  have h := c3_kawase_pipeline { exampleCfg with BloomMode := .Kawase }
    exampleSceneColor ⟨true, true, true, true, true, true, true⟩ geoKawase
    (clampI ({ exampleCfg with BloomMode := .Kawase } :
      UBloomFXComponent).KawaseMipCount 3 8)
    (clampQ ({ exampleCfg with BloomMode := .Kawase } :
      UBloomFXComponent).KawaseFilterRadius (1/10000) (1/100))
    (if ({ exampleCfg with BloomMode := .Kawase } :
        UBloomFXComponent).bKawaseSoftThreshold
      then clampQ ({ exampleCfg with BloomMode := .Kawase } :
        UBloomFXComponent).KawaseThresholdKnee 0 1 else 0)
    (kawaseMipChain geoKawase.extent geoKawase.rect
      (clampI ({ exampleCfg with BloomMode := .Kawase } :
        UBloomFXComponent).KawaseMipCount 3 8).toNat)
    rfl rfl rfl rfl (by decide) (by decide) rfl rfl rfl rfl
  ⟨h.1, h.2.2.2.1⟩

end ClassicBloom
